import Mathlib

set_option maxRecDepth 4000

/-!
Verification of `scripts/validate.py` (version-manifest validator).

The validator receives the value produced by `yaml.safe_load` and returns a
list of error strings; any exception raised while checking manifest content
propagates out of `validate_manifest` (only the file-reading / YAML-parsing
block at the top of the function is guarded by `try`).  We embed the parsed
document model as `PyVal` (Python `None`/`bool`/`int`/`str`/`list`/`dict`,
with `dict` an insertion-ordered association list, as Python dicts are
iteration-ordered), embed the Python operations the script uses —
truthiness, `in`, subscripting, `dict.get`, iteration, `<=` on strings,
set membership (which raises `TypeError` on unhashable values), `str()`
formatting — and model a raised exception as `Except.error`.

Fidelity notes on the format helpers:
* `re.match(r'^\d+\.\d+\.\d+$', v)` / `re.match(r'^[a-f0-9]{64}$', v)`:
  `$` in Python also matches just before one trailing newline, so the
  models strip a single trailing `'\n'` first; `\d` is modelled as the
  ASCII digits `0-9` (the only digits exercised by the manifests).
* `datetime.fromisoformat` (standard library, not part of this repository)
  is modelled by `fromisoformatOK`: `YYYY-MM-DD`, optionally followed by a
  single separator character and `HH[:MM[:SS[.fff or .ffffff]]]`, with an
  optional `±HH:MM` offset — the subset of ISO-8601 accepted by every
  CPython version that the script's `'Z'`-substitution path exercises.
  `validate_iso8601` first replaces every occurrence of `'Z'` with
  `'+00:00'`, exactly as `timestamp.replace('Z', '+00:00')` does.
* `str(x)` (used by the f-strings in error messages) is modelled by
  `pyStr`, with `repr` of nested containers modelled by `pyReprAux`
  (fuel-driven by `sizeOf`, which bounds the nesting depth).
-/

/-- Python value as produced by `yaml.safe_load`: `None`, booleans,
integers, strings, lists and (insertion-ordered) dicts. -/
inductive PyVal where
  | none
  | bool (b : Bool)
  | int (n : Int)
  | str (s : String)
  | list (xs : List PyVal)
  | dict (entries : List (PyVal × PyVal))

/-- Python exception kinds raised by the unguarded part of the script. -/
inductive PyErr where
  | typeError
  | attributeError
  | keyError
  deriving DecidableEq

/-- Python truthiness: `bool(x)`. -/
def truthy : PyVal → Bool
  | PyVal.none => false
  | PyVal.bool b => b
  | PyVal.int n => !(n == 0)
  | PyVal.str s => !s.data.isEmpty
  | PyVal.list xs => !xs.isEmpty
  | PyVal.dict es => !es.isEmpty

/-- Python `v == key` where `key` is a string literal: only a `str` can
compare equal to a string (no `__eq__` overrides in the document model). -/
def pyEqStr (v : PyVal) (key : String) : Bool :=
  match v with
  | PyVal.str t => t == key
  | _ => false

/-- First value bound to string key `key` in a dict's entry list
(Python dicts have unique keys; lookup returns the entry for the key). -/
def dictFind (es : List (PyVal × PyVal)) (key : String) : Option PyVal :=
  match es with
  | [] => Option.none
  | (k, v) :: rest => if pyEqStr k key then Option.some v else dictFind rest key

/-- Does the character list `hs` start with `needle`? -/
def chStartsWith : List Char → List Char → Bool
  | _, [] => true
  | [], _ :: _ => false
  | c :: cs, d :: ds => c == d && chStartsWith cs ds

/-- Substring containment on character lists (Python `needle in haystack`
for strings). -/
def chContainsSub : List Char → List Char → Bool
  | [], needle => needle.isEmpty
  | c :: rest, needle => chStartsWith (c :: rest) needle || chContainsSub rest needle

/-- Python `key in container` for a string literal `key`: key membership on
dicts, element membership on lists, substring test on strings, and
`TypeError` on non-container values. -/
def pyInKey (container : PyVal) (key : String) : Except PyErr Bool :=
  match container with
  | PyVal.dict es => Except.ok (dictFind es key).isSome
  | PyVal.list xs => Except.ok (xs.any (fun x => pyEqStr x key))
  | PyVal.str s => Except.ok (chContainsSub s.data key.data)
  | _ => Except.error PyErr.typeError

/-- Python `container[key]` for a string literal `key`: dict lookup
(`KeyError` when absent); `TypeError` on anything else (list and string
subscripts require integers). -/
def pySubscriptStr (container : PyVal) (key : String) : Except PyErr PyVal :=
  match container with
  | PyVal.dict es =>
    match dictFind es key with
    | Option.some v => Except.ok v
    | Option.none => Except.error PyErr.keyError
  | _ => Except.error PyErr.typeError

/-- Python `m.get(key)`: `None` default on dicts, `AttributeError` on any
non-dict value. -/
def pyDictGet (m : PyVal) (key : String) : Except PyErr PyVal :=
  match m with
  | PyVal.dict es => Except.ok ((dictFind es key).getD PyVal.none)
  | _ => Except.error PyErr.attributeError

/-- Python `for x in v`: lists yield elements, strings yield one-character
strings, dicts yield their keys; other values raise `TypeError`. -/
def pyIterate : PyVal → Except PyErr (List PyVal)
  | PyVal.list xs => Except.ok xs
  | PyVal.str s => Except.ok (s.data.map (fun c => PyVal.str (String.singleton c)))
  | PyVal.dict es => Except.ok (es.map Prod.fst)
  | v => match v with
    | PyVal.none => Except.error PyErr.typeError
    | PyVal.bool _ => Except.error PyErr.typeError
    | PyVal.int _ => Except.error PyErr.typeError
    | _ => Except.error PyErr.typeError

/-- Membership of a string in a string list via `==` (used for Python's
frozen string sets). -/
def strListHas (l : List String) (s : String) : Bool :=
  l.any (fun t => s == t)

/-- Python `v in S` for a set `S` of strings: unhashable values (lists and
dicts) raise `TypeError`; hashable non-strings are simply not members. -/
def pyInStrSet (v : PyVal) (ss : List String) : Except PyErr Bool :=
  match v with
  | PyVal.list _ => Except.error PyErr.typeError
  | PyVal.dict _ => Except.error PyErr.typeError
  | PyVal.str s => Except.ok (strListHas ss s)
  | _ => Except.ok false

/-- Python `s <= t` on strings: lexicographic by code point. -/
def strLeChars : List Char → List Char → Bool
  | [], _ => true
  | _ :: _, [] => false
  | a :: as, b :: bs =>
    Nat.blt a.toNat b.toNat || (a.toNat == b.toNat && strLeChars as bs)

/-- Python `s <= t` on strings. -/
def pyStrLe (s t : String) : Bool :=
  strLeChars s.data t.data

mutual

/-- Nesting depth of a document value (recursion fuel for `pyReprAux`). -/
def pyDepth : PyVal → Nat
  | PyVal.none => 1
  | PyVal.bool _ => 1
  | PyVal.int _ => 1
  | PyVal.str _ => 1
  | PyVal.list xs => 1 + pyDepthList xs
  | PyVal.dict es => 1 + pyDepthEntries es

/-- Greatest nesting depth of a list of document values. -/
def pyDepthList : List PyVal → Nat
  | [] => 0
  | x :: xs => Nat.max (pyDepth x) (pyDepthList xs)

/-- Greatest nesting depth of a dict's entry list. -/
def pyDepthEntries : List (PyVal × PyVal) → Nat
  | [] => 0
  | (k, v) :: es => Nat.max (Nat.max (pyDepth k) (pyDepth v)) (pyDepthEntries es)

end

/-- Model of Python `repr` on document values, with recursion fuel (any
fuel at least `pyDepth v` fully renders `v`; `repr` of a string is the
value between single quotes, unusual escapes not exercised here). -/
def pyReprAux : Nat → PyVal → String
  | 0, _ => ""
  | _ + 1, PyVal.none => "None"
  | _ + 1, PyVal.bool true => "True"
  | _ + 1, PyVal.bool false => "False"
  | _ + 1, PyVal.int n => toString n
  | _ + 1, PyVal.str s => "'" ++ s ++ "'"
  | n + 1, PyVal.list xs =>
    "[" ++ String.intercalate ", " (xs.map (pyReprAux n)) ++ "]"
  | n + 1, PyVal.dict es =>
    "\x7b" ++
      String.intercalate ", "
        (es.map (fun kv => pyReprAux n kv.1 ++ ": " ++ pyReprAux n kv.2)) ++
      "\x7d"

/-- Model of Python `str(x)` as used by the script's f-strings. -/
def pyStr : PyVal → String
  | PyVal.str s => s
  | v => pyReprAux (pyDepth v) v

/-- Message helper: every per-version error of the script has the shape
`f"Version {version}: ..."`. -/
def vmsg (version : PyVal) (tail : String) : String :=
  ("Version " ++ pyStr version) ++ tail

/-- `SEVERITY_VALUES` of `scripts/validate.py`. -/
def SEVERITY_VALUES : List String := ["green", "yellow", "red"]

/-- `MATCHER_TYPES` of `scripts/validate.py`. -/
def MATCHER_TYPES : List String := ["default", "country", "location_hash"]

/-- `VALID_COUNTRIES` of `scripts/validate.py`. -/
def VALID_COUNTRIES : List String :=
  ["US", "GB", "DE", "FR", "IT", "ES", "NL", "BE", "AT", "CH",
   "PL", "CZ", "SK", "HU", "RO", "BG", "HR", "SI", "SE", "NO",
   "DK", "FI", "IE", "PT", "GR", "LU", "EE", "LV", "LT", "CY",
   "MT", "IS"]

/-- ASCII digit test (`\d` over the data this script sees). -/
def isDigitCh (c : Char) : Bool :=
  Nat.ble 48 c.toNat && Nat.ble c.toNat 57

/-- All characters are ASCII digits. -/
def chAllDigits (cs : List Char) : Bool :=
  cs.all isDigitCh

/-- A regex `$` also matches just before one trailing newline; patterns of
the form `^P$` where `P` cannot match `'\n'` therefore accept exactly the
strings `P` accepts, with at most one trailing `'\n'` stripped. -/
def stripDollar (cs : List Char) : List Char :=
  if cs.getLast? == Option.some '\n' then cs.dropLast else cs

/-- Split a character list at each `'.'`. -/
def splitDot : List Char → List (List Char)
  | [] => [[]]
  | '.' :: rest => [] :: splitDot rest
  | c :: rest =>
    match splitDot rest with
    | [] => [[c]]
    | g :: gs => (c :: g) :: gs

/-- Nonempty run of ASCII digits (`\d+`). -/
def nonEmptyDigits (cs : List Char) : Bool :=
  !cs.isEmpty && chAllDigits cs

/-- `validate_semver` of `scripts/validate.py`:
`re.match(r'^\d+\.\d+\.\d+$', version) is not None`. -/
def validate_semver (version : String) : Bool :=
  match splitDot (stripDollar version.data) with
  | [a, b, c] => nonEmptyDigits a && nonEmptyDigits b && nonEmptyDigits c
  | _ => false

/-- Lowercase hex character (`[a-f0-9]`). -/
def isHexLowerCh (c : Char) : Bool :=
  (Nat.ble 97 c.toNat && Nat.ble c.toNat 102) || isDigitCh c

/-- `validate_location_hash` of `scripts/validate.py`:
`re.match(r'^[a-f0-9]{64}$', hash_value) is not None`. -/
def validate_location_hash (hash_value : String) : Bool :=
  let cs := stripDollar hash_value.data
  cs.length == 64 && cs.all isHexLowerCh

/-- Numeric value of a digit run. -/
def natOfDigits (cs : List Char) : Nat :=
  cs.foldl (fun n c => n * 10 + (c.toNat - 48)) 0

/-- Gregorian leap year. -/
def isLeap (y : Nat) : Bool :=
  (y % 4 == 0 && !(y % 100 == 0)) || y % 400 == 0

/-- Days in a month. -/
def daysInMonth (y m : Nat) : Nat :=
  if m == 2 then (if isLeap y then 29 else 28)
  else if m == 4 || m == 6 || m == 9 || m == 11 then 30
  else 31

/-- `YYYY-MM-DD` date with valid ranges (`datetime` years run 1–9999). -/
def parseDate (cs : List Char) : Bool :=
  match cs with
  | [y1, y2, y3, y4, '-', mo1, mo2, '-', d1, d2] =>
    chAllDigits [y1, y2, y3, y4, mo1, mo2, d1, d2] &&
    (let y := natOfDigits [y1, y2, y3, y4]
     let mo := natOfDigits [mo1, mo2]
     let d := natOfDigits [d1, d2]
     decide (1 ≤ y) && decide (1 ≤ mo) && decide (mo ≤ 12) &&
     decide (1 ≤ d) && decide (d ≤ daysInMonth y mo))
  | _ => false

/-- Two-digit hour field, `00`–`23`. -/
def timeHH (h1 h2 : Char) : Bool :=
  chAllDigits [h1, h2] && decide (natOfDigits [h1, h2] ≤ 23)

/-- Two-digit minute/second field, `00`–`59`. -/
def timeMM (m1 m2 : Char) : Bool :=
  chAllDigits [m1, m2] && decide (natOfDigits [m1, m2] ≤ 59)

/-- Optional fractional-seconds suffix: empty, or `.` plus exactly three or
six digits. -/
def fracOK : List Char → Bool
  | [] => true
  | '.' :: fr => (fr.length == 3 || fr.length == 6) && chAllDigits fr
  | _ => false

/-- Time-of-day part: `HH`, `HH:MM`, or `HH:MM:SS` with optional fraction. -/
def parseTime (cs : List Char) : Bool :=
  match cs with
  | [h1, h2] => timeHH h1 h2
  | [h1, h2, ':', m1, m2] => timeHH h1 h2 && timeMM m1 m2
  | h1 :: h2 :: ':' :: m1 :: m2 :: ':' :: s1 :: s2 :: rest =>
    timeHH h1 h2 && timeMM m1 m2 && timeMM s1 s2 && fracOK rest
  | _ => false

/-- Split the time part at the first `'+'` or `'-'` (start of a UTC
offset, if any). -/
def splitAtSign (cs : List Char) : List Char × Option (List Char) :=
  match cs with
  | [] => ([], Option.none)
  | c :: rest =>
    if c == '+' || c == '-' then ([], Option.some rest)
    else
      match splitAtSign rest with
      | (a, b) => (c :: a, b)

/-- Optional UTC offset after the sign: `HH:MM` (offsets are strictly less
than 24 hours). -/
def offsetOK : Option (List Char) → Bool
  | Option.none => true
  | Option.some [o1, o2, ':', p1, p2] => timeHH o1 o2 && timeMM p1 p2
  | Option.some _ => false

/-- Model of `datetime.fromisoformat` (standard library): a `YYYY-MM-DD`
date alone, or the date, one separator character, a time-of-day, and an
optional `±HH:MM` offset. -/
def fromisoformatOK (cs : List Char) : Bool :=
  if cs.length ≤ 10 then cs.length == 10 && parseDate cs
  else if cs.length == 11 then false
  else
    parseDate (cs.take 10) &&
    (match splitAtSign (cs.drop 11) with
     | (tp, off) => parseTime tp && offsetOK off)

/-- Replace every `'Z'` with `"+00:00"`
(`timestamp.replace('Z', '+00:00')`). -/
def replaceZ : List Char → List Char
  | [] => []
  | 'Z' :: rest => '+' :: '0' :: '0' :: ':' :: '0' :: '0' :: replaceZ rest
  | c :: rest => c :: replaceZ rest

/-- `validate_iso8601` of `scripts/validate.py`, for a string argument (a
non-string argument raises `AttributeError` at `timestamp.replace`, which
the caller models). -/
def validate_iso8601 (timestamp : String) : Bool :=
  fromisoformatOK (replaceZ timestamp.data)

/-- The `matcher_type == 'country'` block of the matcher loop (lines
103–106): `matcher_value` must be truthy and in `VALID_COUNTRIES`,
otherwise the invalid-country-code error (rendering the value) is
emitted; a truthy unhashable value raises `TypeError` at the set
membership test. -/
def countryCheck (version matcher : PyVal) : Except PyErr (List String) :=
  match pyDictGet matcher "matcher_value" with
  | Except.error e => Except.error e
  | Except.ok country =>
    if truthy country then
      match pyInStrSet country VALID_COUNTRIES with
      | Except.error e => Except.error e
      | Except.ok true => Except.ok []
      | Except.ok false =>
        Except.ok [vmsg version (": invalid country code '" ++ (pyStr country ++ "'"))]
    else
      Except.ok [vmsg version (": invalid country code '" ++ (pyStr country ++ "'"))]

/-- The `matcher_type == 'location_hash'` block of the matcher loop
(lines 108–111): `matcher_value` must be truthy and pass
`validate_location_hash`, otherwise the invalid-location-hash error is
emitted; a truthy non-string raises `TypeError` at `re.match`. -/
def locationCheck (version matcher : PyVal) : Except PyErr (List String) :=
  match pyDictGet matcher "matcher_value" with
  | Except.error e => Except.error e
  | Except.ok hv =>
    if truthy hv then
      match hv with
      | PyVal.str h =>
        if validate_location_hash h then Except.ok []
        else Except.ok [vmsg version ": invalid location hash format"]
      | _ => Except.error PyErr.typeError
    else Except.ok [vmsg version ": invalid location hash format"]

/-- The severity block of the matcher loop (lines 113–115): `severity`
must be in `SEVERITY_VALUES`; an unhashable severity raises `TypeError`. -/
def severityCheck (version matcher : PyVal) : Except PyErr (List String) :=
  match pyDictGet matcher "severity" with
  | Except.error e => Except.error e
  | Except.ok sv =>
    match pyInStrSet sv SEVERITY_VALUES with
    | Except.error e => Except.error e
    | Except.ok inSev =>
      Except.ok (if inSev then []
                 else [vmsg version (": invalid severity '" ++ (pyStr sv ++ "'"))])

/-- One iteration of the matcher loop of `validate_manifest`
(lines 96–117): returns the errors this matcher contributes and whether it
set `has_default`.  A failed `matcher_type` membership test emits the
invalid-matcher_type error and `continue`s, skipping every later check for
this matcher; otherwise the country block, location-hash block and
severity block run in that order. -/
def checkMatcher (version matcher : PyVal) : Except PyErr (List String × Bool) :=
  match pyDictGet matcher "matcher_type" with
  | Except.error e => Except.error e
  | Except.ok mt =>
    match pyInStrSet mt MATCHER_TYPES with
    | Except.error e => Except.error e
    | Except.ok false =>
      Except.ok ([vmsg version (": invalid matcher_type '" ++ (pyStr mt ++ "'"))], false)
    | Except.ok true =>
      match (if pyEqStr mt "country" then countryCheck version matcher
             else Except.ok []) with
      | Except.error e => Except.error e
      | Except.ok countryErrs =>
        match (if pyEqStr mt "location_hash" then locationCheck version matcher
               else Except.ok []) with
        | Except.error e => Except.error e
        | Except.ok hashErrs =>
          match severityCheck version matcher with
          | Except.error e => Except.error e
          | Except.ok sevErrs =>
            Except.ok (countryErrs ++ hashErrs ++ sevErrs, pyEqStr mt "default")

/-- The matcher loop of `validate_manifest`: errors in matcher order, and
the final value of `has_default` (an exception in any iteration aborts the
whole validation, discarding accumulated errors, as in Python). -/
def checkMatchers (version : PyVal) : List PyVal → Except PyErr (List String × Bool)
  | [] => Except.ok ([], false)
  | m :: rest =>
    match checkMatcher version m with
    | Except.error e => Except.error e
    | Except.ok (errs1, d1) =>
      match checkMatchers version rest with
      | Except.error e => Except.error e
      | Except.ok (errs2, d2) => Except.ok (errs1 ++ errs2, d1 || d2)

/-- The per-version body of `validate_manifest` (lines 84–120):
`released_at` checks, then the `matchers` presence check (whose failure
`continue`s past all matcher checks), then the matcher loop and the
missing-default check. -/
def checkVersionEntry (version details : PyVal) : Except PyErr (List String) :=
  match pyInKey details "released_at" with
  | Except.error e => Except.error e
  | Except.ok hasRel =>
    match
      (if hasRel then
        match pySubscriptStr details "released_at" with
        | Except.error e => Except.error e
        | Except.ok (PyVal.str ts) =>
          Except.ok (if validate_iso8601 ts then []
                     else [vmsg version ": invalid ISO 8601 timestamp"])
        | Except.ok _ => Except.error PyErr.attributeError
      else (Except.ok [vmsg version ": missing 'released_at'"] : Except PyErr (List String))) with
    | Except.error e => Except.error e
    | Except.ok relErrs =>
      match pyInKey details "matchers" with
      | Except.error e => Except.error e
      | Except.ok hasM =>
        if hasM then
          match pySubscriptStr details "matchers" with
          | Except.error e => Except.error e
          | Except.ok mv =>
            match pyIterate mv with
            | Except.error e => Except.error e
            | Except.ok items =>
              match checkMatchers version items with
              | Except.error e => Except.error e
              | Except.ok (merrs, hasDef) =>
                Except.ok (relErrs ++ merrs ++
                  (if hasDef then [] else [vmsg version ": missing default matcher"]))
        else Except.ok (relErrs ++ [vmsg version ": missing 'matchers'"])

/-- The loop over version entries (`for version, details in versions.items()`). -/
def checkVersions : List (PyVal × PyVal) → Except PyErr (List String)
  | [] => Except.ok []
  | (v, d) :: rest =>
    match checkVersionEntry v d with
    | Except.error e => Except.error e
    | Except.ok es1 =>
      match checkVersions rest with
      | Except.error e => Except.error e
      | Except.ok es2 => Except.ok (es1 ++ es2)

/-- The version-key loop of `validate_manifest` (lines 71–81): semver
format check on each key, then the lexicographic ascending-order check
against the previous key; `re.match` raises `TypeError` on a non-string
key. -/
def checkKeys : Option String → List PyVal → Except PyErr (List String)
  | prev, k :: rest =>
    (match k with
     | PyVal.str s =>
       (match checkKeys (Option.some s) rest with
        | Except.error e => Except.error e
        | Except.ok restErrs =>
          Except.ok
            ((if validate_semver s then []
              else ["Invalid semantic version format: " ++ s]) ++
             (match prev with
              | Option.some p =>
                if pyStrLe s p then
                  ["Versions not in ascending order: " ++ (p ++ (" -> " ++ s))]
                else []
              | Option.none => []) ++
             restErrs))
     | _ => Except.error PyErr.typeError)
  | _, [] => Except.ok []

/-- `validate_manifest` of `scripts/validate.py`, applied to the value
`yaml.safe_load` produced (the guarded file-reading block is the
out-of-scope collaborator boundary).  `Except.error` models an exception
propagating out of the function. -/
def validate_manifest (data : PyVal) : Except PyErr (List String) :=
  if truthy data then
    match pyInKey data "versions" with
    | Except.error e => Except.error e
    | Except.ok false => Except.ok ["Missing 'versions' key"]
    | Except.ok true =>
      match pySubscriptStr data "versions" with
      | Except.error e => Except.error e
      | Except.ok versions =>
        if truthy versions then
          match versions with
          | PyVal.dict vs =>
            (match checkKeys Option.none (vs.map Prod.fst) with
             | Except.error e => Except.error e
             | Except.ok keyErrs =>
               match checkVersions vs with
               | Except.error e => Except.error e
               | Except.ok verrs => Except.ok (keyErrs ++ verrs))
          | _ => Except.error PyErr.attributeError
        else Except.ok ["No versions defined"]
  else Except.ok ["Missing 'versions' key"]

example : validate_manifest PyVal.none = Except.ok ["Missing 'versions' key"] := rfl

example :
    validate_manifest
      (PyVal.dict [(PyVal.str "versions",
        PyVal.dict [(PyVal.str "1.0.0",
          PyVal.dict [(PyVal.str "released_at", PyVal.str "2024-01-01T00:00:00Z"),
            (PyVal.str "matchers", PyVal.list [PyVal.dict
              [(PyVal.str "matcher_type", PyVal.str "default"),
               (PyVal.str "severity", PyVal.str "green")]])])])]) =
      Except.ok [] := rfl


/-! ## Claim-side predicates

`validManifest` formalises "satisfies all validation rules" (C1):
string-ordered ascending semver keys, parseable `released_at`, a matcher
list containing a `default` matcher, every matcher of an allowed type with
valid `country` / `location_hash` values and a valid severity.
`wellShaped` captures the structural discipline under which the validator
cannot raise (used for the amended C2). -/

/-- Does this matcher carry `matcher_type == 'default'`? -/
def isDefaultMatcher (m : PyVal) : Bool :=
  match m with
  | PyVal.dict mes => pyEqStr ((dictFind mes "matcher_type").getD PyVal.none) "default"
  | _ => false

/-- A matcher passing every matcher-level rule: allowed `matcher_type`, a
configured country code for `country`, a 64-hex `matcher_value` for
`location_hash`, and an allowed severity. -/
def validMatcher (m : PyVal) : Bool :=
  match m with
  | PyVal.dict mes =>
    (match dictFind mes "matcher_type" with
     | Option.some (PyVal.str t) =>
       strListHas MATCHER_TYPES t &&
       (!(t == "country") ||
         (match dictFind mes "matcher_value" with
          | Option.some (PyVal.str c) => strListHas VALID_COUNTRIES c
          | _ => false)) &&
       (!(t == "location_hash") ||
         (match dictFind mes "matcher_value" with
          | Option.some (PyVal.str h) => validate_location_hash h
          | _ => false))
     | _ => false) &&
    (match dictFind mes "severity" with
     | Option.some (PyVal.str sv) => strListHas SEVERITY_VALUES sv
     | _ => false)
  | _ => false

/-- A version entry passing every per-version rule: a parseable string
`released_at`, and a matcher list of valid matchers containing at least
one `default` matcher. -/
def validVersionEntry (d : PyVal) : Bool :=
  match d with
  | PyVal.dict ds =>
    (match dictFind ds "released_at" with
     | Option.some (PyVal.str ts) => validate_iso8601 ts
     | _ => false) &&
    (match dictFind ds "matchers" with
     | Option.some (PyVal.list ms) => ms.all validMatcher && ms.any isDefaultMatcher
     | _ => false)
  | _ => false

/-- Version keys are strings in semver format, strictly ascending under
string comparison (`prev` is the previous key, if any). -/
def keysValidAscending : Option String → List PyVal → Bool
  | _, [] => true
  | prev, PyVal.str s :: rest =>
    validate_semver s &&
    (match prev with
     | Option.some p => !pyStrLe s p
     | Option.none => true) &&
    keysValidAscending (Option.some s) rest
  | _, _ :: _ => false

/-- A manifest satisfying every validation rule of the script. -/
def validManifest (data : PyVal) : Bool :=
  match data with
  | PyVal.dict es =>
    (match dictFind es "versions" with
     | Option.some (PyVal.dict vs) =>
       !vs.isEmpty &&
       keysValidAscending Option.none (vs.map Prod.fst) &&
       vs.all (fun kv => validVersionEntry kv.2)
     | _ => false)
  | _ => false

/-- Hashable document value (usable in a Python set-membership test). -/
def hashableShape (v : PyVal) : Bool :=
  match v with
  | PyVal.list _ => false
  | PyVal.dict _ => false
  | _ => true

/-- Shape discipline for one matcher under which the matcher checks cannot
raise: a mapping whose `matcher_type` and `severity` are hashable and
whose `matcher_value` is a string when present. -/
def shapedMatcher (m : PyVal) : Bool :=
  match m with
  | PyVal.dict mes =>
    hashableShape ((dictFind mes "matcher_type").getD PyVal.none) &&
    (match dictFind mes "matcher_value" with
     | Option.none => true
     | Option.some (PyVal.str _) => true
     | Option.some _ => false) &&
    hashableShape ((dictFind mes "severity").getD PyVal.none)
  | _ => false

/-- Shape discipline for one version entry: a mapping whose `released_at`
is a string when present and whose `matchers` is a list of shaped matchers
when present. -/
def shapedEntry (d : PyVal) : Bool :=
  match d with
  | PyVal.dict ds =>
    (match dictFind ds "released_at" with
     | Option.none => true
     | Option.some (PyVal.str _) => true
     | Option.some _ => false) &&
    (match dictFind ds "matchers" with
     | Option.none => true
     | Option.some (PyVal.list ms) => ms.all shapedMatcher
     | Option.some _ => false)
  | _ => false

/-- Shape discipline for a whole manifest under which `validate_manifest`
cannot raise: falsy, or a mapping whose `versions` value (if present and
truthy) is a mapping from string keys to shaped entries. -/
def wellShaped (data : PyVal) : Bool :=
  match data with
  | PyVal.dict es =>
    (match dictFind es "versions" with
     | Option.none => true
     | Option.some (PyVal.dict vs) =>
       vs.all (fun kv =>
         (match kv.1 with
          | PyVal.str _ => true
          | _ => false) && shapedEntry kv.2)
     | Option.some w => !truthy w)
  | _ => !truthy data

/-! ## Helper lemmas -/

theorem strData_append (a b : String) : (a ++ b).data = a.data ++ b.data := by
  cases a; cases b; rfl

theorem strAppCancel {p a b : String} (h : p ++ a = p ++ b) : a = b := by
  have hd := congrArg String.data h
  rw [strData_append, strData_append] at hd
  exact String.ext (List.append_cancel_left hd)

theorem vmsg_inj {v : PyVal} {a b : String} (h : vmsg v a = vmsg v b) : a = b :=
  strAppCancel h

/-- Two message tails differ when they differ at a position inside the
fixed literal prefix of the parameterised one. -/
theorem ne_of_param_at (i : Nat) {lit pre : String} (rest : String)
    (hpre : i < pre.data.length)
    (hne : lit.data[i]? ≠ pre.data[i]?) :
    lit ≠ pre ++ rest := by
  intro h
  apply hne
  have hd := congrArg String.data h
  rw [strData_append] at hd
  rw [hd, List.getElem?_append_left hpre]

theorem dictFind_some_not_nil {es : List (PyVal × PyVal)} {k : String} {v : PyVal}
    (h : dictFind es k = Option.some v) : es.isEmpty = false := by
  cases es with
  | nil => simp [dictFind] at h
  | cons e rest => rfl

theorem strListHas_mem {l : List String} {s : String} (h : strListHas l s = true) :
    s ∈ l := by
  obtain ⟨t, ht, he⟩ := List.any_eq_true.mp h
  rwa [eq_of_beq he]

theorem strListHas_all {l : List String} {s : String} {p : String → Bool}
    (h : strListHas l s = true) (hall : l.all p = true) : p s = true :=
  List.all_eq_true.mp hall s (strListHas_mem h)

theorem country_truthy {c : String} (h : strListHas VALID_COUNTRIES c = true) :
    truthy (PyVal.str c) = true := by
  have hall : VALID_COUNTRIES.all (fun c => truthy (PyVal.str c)) = true := by decide
  simpa using strListHas_all h hall

theorem hash_truthy {h : String} (hv : validate_location_hash h = true) :
    truthy (PyVal.str h) = true := by
  by_contra hc
  simp only [truthy, Bool.not_eq_true] at hc
  have hd : h.data.isEmpty = true := by simpa using hc
  rw [List.isEmpty_iff] at hd
  rw [validate_location_hash, stripDollar, hd] at hv
  simp at hv

theorem checkKeys_valid (keys : List PyVal) :
    ∀ prev, keysValidAscending prev keys = true → checkKeys prev keys = Except.ok [] := by
  induction keys with
  | nil => intro prev _; rfl
  | cons k rest ih =>
    intro prev h
    cases k with
    | str s =>
      simp only [keysValidAscending, Bool.and_eq_true] at h
      obtain ⟨⟨h1, h2⟩, h3⟩ := h
      simp only [checkKeys, ih (Option.some s) h3, h1]
      cases prev with
      | none => simp
      | some p =>
        simp only [Bool.not_eq_true'] at h2
        simp [h2]
    | none => simp [keysValidAscending] at h
    | bool b => simp [keysValidAscending] at h
    | int n => simp [keysValidAscending] at h
    | list xs => simp [keysValidAscending] at h
    | dict es => simp [keysValidAscending] at h

theorem checkMatcher_valid (v m : PyVal) (h : validMatcher m = true) :
    checkMatcher v m = Except.ok ([], isDefaultMatcher m) := by
  cases m with
  | dict mes =>
    simp only [validMatcher, Bool.and_eq_true] at h
    obtain ⟨hty, hsev⟩ := h
    cases hmt : dictFind mes "matcher_type" with
    | none => rw [hmt] at hty; simp at hty
    | some w =>
      rw [hmt] at hty
      cases w with
      | str t =>
        simp only [Bool.and_eq_true] at hty
        obtain ⟨⟨h1, h2⟩, h3⟩ := hty
        cases hsv : dictFind mes "severity" with
        | none => rw [hsv] at hsev; simp at hsev
        | some sw =>
          rw [hsv] at hsev
          cases sw with
          | str sv =>
            have hsev' : strListHas SEVERITY_VALUES sv = true := by simpa using hsev
            have g1 : pyDictGet (PyVal.dict mes) "matcher_type" = Except.ok (PyVal.str t) := by
              simp [pyDictGet, hmt]
            have g2 : pyInStrSet (PyVal.str t) MATCHER_TYPES = Except.ok true := by
              simp [pyInStrSet, h1]
            have gsev : severityCheck v (PyVal.dict mes) = Except.ok [] := by
              simp [severityCheck, pyDictGet, hsv, pyInStrSet, hsev']
            have hcountry :
                (if pyEqStr (PyVal.str t) "country" then countryCheck v (PyVal.dict mes)
                 else (Except.ok [] : Except PyErr (List String))) = Except.ok [] := by
              by_cases hc : pyEqStr (PyVal.str t) "country" = true
              · have hc' : (t == "country") = true := hc
                rw [hc'] at h2
                simp only [Bool.not_true, Bool.false_or] at h2
                cases hmv : dictFind mes "matcher_value" with
                | none => rw [hmv] at h2; simp at h2
                | some mw =>
                  rw [hmv] at h2
                  cases mw with
                  | str c =>
                    have h2' : strListHas VALID_COUNTRIES c = true := by simpa using h2
                    simp [hc, countryCheck, pyDictGet, hmv, country_truthy h2',
                      pyInStrSet, h2']
                  | none => simp at h2
                  | bool b => simp at h2
                  | int n => simp at h2
                  | list xs => simp at h2
                  | dict d2 => simp at h2
              · simp [hc]
            have hhash :
                (if pyEqStr (PyVal.str t) "location_hash" then locationCheck v (PyVal.dict mes)
                 else (Except.ok [] : Except PyErr (List String))) = Except.ok [] := by
              by_cases hc : pyEqStr (PyVal.str t) "location_hash" = true
              · have hc' : (t == "location_hash") = true := hc
                rw [hc'] at h3
                simp only [Bool.not_true, Bool.false_or] at h3
                cases hmv : dictFind mes "matcher_value" with
                | none => rw [hmv] at h3; simp at h3
                | some mw =>
                  rw [hmv] at h3
                  cases mw with
                  | str hs =>
                    have h3' : validate_location_hash hs = true := by simpa using h3
                    simp [hc, locationCheck, pyDictGet, hmv, hash_truthy h3', h3']
                  | none => simp at h3
                  | bool b => simp at h3
                  | int n => simp at h3
                  | list xs => simp at h3
                  | dict d2 => simp at h3
              · simp [hc]
            have hdef : isDefaultMatcher (PyVal.dict mes) = pyEqStr (PyVal.str t) "default" := by
              simp [isDefaultMatcher, hmt]
            simp only [checkMatcher, g1, g2, hcountry, hhash, gsev, hdef]
            simp
          | none => simp at hsev
          | bool b => simp at hsev
          | int n => simp at hsev
          | list xs => simp at hsev
          | dict d2 => simp at hsev
      | none => simp at hty
      | bool b => simp at hty
      | int n => simp at hty
      | list xs => simp at hty
      | dict d2 => simp at hty
  | none => simp [validMatcher] at h
  | bool b => simp [validMatcher] at h
  | int n => simp [validMatcher] at h
  | str s => simp [validMatcher] at h
  | list xs => simp [validMatcher] at h

theorem checkMatchers_valid (v : PyVal) (ms : List PyVal)
    (h : ms.all validMatcher = true) :
    checkMatchers v ms = Except.ok ([], ms.any isDefaultMatcher) := by
  induction ms with
  | nil => rfl
  | cons m rest ih =>
    simp only [List.all_cons, Bool.and_eq_true] at h
    obtain ⟨h1, h2⟩ := h
    simp [checkMatchers, checkMatcher_valid v m h1, ih h2, List.any_cons]

theorem checkVersionEntry_valid (v d : PyVal) (h : validVersionEntry d = true) :
    checkVersionEntry v d = Except.ok [] := by
  cases d with
  | dict ds =>
    simp only [validVersionEntry, Bool.and_eq_true] at h
    obtain ⟨hrel, hmat⟩ := h
    cases hra : dictFind ds "released_at" with
    | none => rw [hra] at hrel; simp at hrel
    | some rw' =>
      rw [hra] at hrel
      cases rw' with
      | str ts =>
        have hiso : validate_iso8601 ts = true := by simpa using hrel
        cases hms : dictFind ds "matchers" with
        | none => rw [hms] at hmat; simp at hmat
        | some mw =>
          rw [hms] at hmat
          cases mw with
          | list ms =>
            simp only [Bool.and_eq_true] at hmat
            obtain ⟨hall, hany⟩ := hmat
            have g1 : pyInKey (PyVal.dict ds) "released_at" = Except.ok true := by
              simp [pyInKey, hra]
            have g2 : pySubscriptStr (PyVal.dict ds) "released_at" = Except.ok (PyVal.str ts) := by
              simp [pySubscriptStr, hra]
            have g3 : pyInKey (PyVal.dict ds) "matchers" = Except.ok true := by
              simp [pyInKey, hms]
            have g4 : pySubscriptStr (PyVal.dict ds) "matchers" = Except.ok (PyVal.list ms) := by
              simp [pySubscriptStr, hms]
            simp only [checkVersionEntry, g1, g2, g3, g4, hiso, pyIterate,
              checkMatchers_valid v ms hall, hany, if_true]
            simp
          | none => simp at hmat
          | bool b => simp at hmat
          | int n => simp at hmat
          | str s2 => simp at hmat
          | dict d2 => simp at hmat
      | none => simp at hrel
      | bool b => simp at hrel
      | int n => simp at hrel
      | list xs => simp at hrel
      | dict d2 => simp at hrel
  | none => simp [validVersionEntry] at h
  | bool b => simp [validVersionEntry] at h
  | int n => simp [validVersionEntry] at h
  | str s => simp [validVersionEntry] at h
  | list xs => simp [validVersionEntry] at h

theorem checkVersions_valid (vs : List (PyVal × PyVal))
    (h : vs.all (fun kv => validVersionEntry kv.2) = true) :
    checkVersions vs = Except.ok [] := by
  induction vs with
  | nil => rfl
  | cons kv rest ih =>
    simp only [List.all_cons, Bool.and_eq_true] at h
    obtain ⟨h1, h2⟩ := h
    obtain ⟨v, d⟩ := kv
    simp [checkVersions, checkVersionEntry_valid v d h1, ih h2]

/-- C1. Every manifest satisfying all validation rules (ascending
string-ordered semver keys, parseable `released_at`, at least one
`default` matcher per version, allowed matcher types, configured country
codes, 64-hex location hashes, allowed severities) validates with the
empty error sequence. -/
theorem validManifest_validate_ok (data : PyVal) (h : validManifest data = true) :
    validate_manifest data = Except.ok [] := by
  cases data with
  | dict es =>
    simp only [validManifest] at h
    cases hv : dictFind es "versions" with
    | none => rw [hv] at h; simp at h
    | some w =>
      rw [hv] at h
      cases w with
      | dict vs =>
        simp only [Bool.and_eq_true] at h
        obtain ⟨⟨hne, hkeys⟩, hentries⟩ := h
        have htr : truthy (PyVal.dict es) = true := by
          simp [truthy, dictFind_some_not_nil hv]
        have hin : pyInKey (PyVal.dict es) "versions" = Except.ok true := by
          simp [pyInKey, hv]
        have hsub : pySubscriptStr (PyVal.dict es) "versions" = Except.ok (PyVal.dict vs) := by
          simp [pySubscriptStr, hv]
        have htv : truthy (PyVal.dict vs) = true := by
          simp only [Bool.not_eq_true'] at hne
          simp [truthy, hne]
        simp only [validate_manifest, htr, hin, hsub, htv, if_true,
          checkKeys_valid (vs.map Prod.fst) Option.none hkeys, checkVersions_valid vs hentries]
        simp
      | none => simp at h
      | bool b => simp at h
      | int n => simp at h
      | str s => simp at h
      | list xs => simp at h
  | none => simp [validManifest] at h
  | bool b => simp [validManifest] at h
  | int n => simp [validManifest] at h
  | str s => simp [validManifest] at h
  | list xs => simp [validManifest] at h

/-- Witness for C1: the minimal manifest of concrete scenario 1 satisfies
every rule and yields `[]`. -/
theorem validManifest_validate_ok_witness :
    validManifest
        (PyVal.dict [(PyVal.str "versions",
          PyVal.dict [(PyVal.str "1.0.0",
            PyVal.dict [(PyVal.str "released_at", PyVal.str "2024-01-01T00:00:00Z"),
              (PyVal.str "matchers", PyVal.list [PyVal.dict
                [(PyVal.str "matcher_type", PyVal.str "default"),
                 (PyVal.str "severity", PyVal.str "green")]])])])]) = true ∧
    validate_manifest
        (PyVal.dict [(PyVal.str "versions",
          PyVal.dict [(PyVal.str "1.0.0",
            PyVal.dict [(PyVal.str "released_at", PyVal.str "2024-01-01T00:00:00Z"),
              (PyVal.str "matchers", PyVal.list [PyVal.dict
                [(PyVal.str "matcher_type", PyVal.str "default"),
                 (PyVal.str "severity", PyVal.str "green")]])])])]) = Except.ok [] :=
  ⟨by decide, validManifest_validate_ok _ (by decide)⟩

theorem pyInStrSet_ok {v : PyVal} (h : hashableShape v = true) (ss : List String) :
    ∃ b, pyInStrSet v ss = Except.ok b := by
  cases v with
  | list xs => simp [hashableShape] at h
  | dict es => simp [hashableShape] at h
  | none => exact ⟨_, rfl⟩
  | bool b => exact ⟨_, rfl⟩
  | int n => exact ⟨_, rfl⟩
  | str s => exact ⟨_, rfl⟩

theorem countryCheck_shaped_ok (v : PyVal) (mes : List (PyVal × PyVal))
    (hmv : (match dictFind mes "matcher_value" with
      | Option.none => true
      | Option.some (PyVal.str _) => true
      | Option.some _ => false) = true) :
    ∃ ce, countryCheck v (PyVal.dict mes) = Except.ok ce := by
  cases hmv' : dictFind mes "matcher_value" with
  | none => simp [countryCheck, pyDictGet, hmv', truthy]
  | some w =>
    rw [hmv'] at hmv
    cases w with
    | str c =>
      by_cases htc : truthy (PyVal.str c) = true
      · cases hsc : strListHas VALID_COUNTRIES c with
        | false => simp [countryCheck, pyDictGet, hmv', htc, pyInStrSet, hsc]
        | true => simp [countryCheck, pyDictGet, hmv', htc, pyInStrSet, hsc]
      · simp [countryCheck, pyDictGet, hmv', htc]
    | none => simp at hmv
    | bool b2 => simp at hmv
    | int n => simp at hmv
    | list xs => simp at hmv
    | dict d2 => simp at hmv

theorem locationCheck_shaped_ok (v : PyVal) (mes : List (PyVal × PyVal))
    (hmv : (match dictFind mes "matcher_value" with
      | Option.none => true
      | Option.some (PyVal.str _) => true
      | Option.some _ => false) = true) :
    ∃ he, locationCheck v (PyVal.dict mes) = Except.ok he := by
  cases hmv' : dictFind mes "matcher_value" with
  | none => simp [locationCheck, pyDictGet, hmv', truthy]
  | some w =>
    rw [hmv'] at hmv
    cases w with
    | str hs =>
      by_cases htc : truthy (PyVal.str hs) = true
      · cases hvl : validate_location_hash hs with
        | false => simp [locationCheck, pyDictGet, hmv', htc, hvl]
        | true => simp [locationCheck, pyDictGet, hmv', htc, hvl]
      · simp [locationCheck, pyDictGet, hmv', htc]
    | none => simp at hmv
    | bool b2 => simp at hmv
    | int n => simp at hmv
    | list xs => simp at hmv
    | dict d2 => simp at hmv

theorem checkMatcher_shaped_ok (v m : PyVal) (h : shapedMatcher m = true) :
    ∃ p, checkMatcher v m = Except.ok p := by
  cases m with
  | dict mes =>
    simp only [shapedMatcher, Bool.and_eq_true] at h
    obtain ⟨⟨hty, hmv⟩, hsev⟩ := h
    obtain ⟨b, hb⟩ := pyInStrSet_ok hty MATCHER_TYPES
    cases b with
    | false => simp [checkMatcher, pyDictGet, hb]
    | true =>
      have hcountry :
          ∃ ce, (if pyEqStr ((dictFind mes "matcher_type").getD PyVal.none) "country" then
            countryCheck v (PyVal.dict mes)
          else (Except.ok [] : Except PyErr (List String))) = Except.ok ce := by
        by_cases hc : pyEqStr ((dictFind mes "matcher_type").getD PyVal.none) "country" = true
        · rw [if_pos hc]
          exact countryCheck_shaped_ok v mes hmv
        · simp [hc]
      have hhash :
          ∃ he, (if pyEqStr ((dictFind mes "matcher_type").getD PyVal.none) "location_hash" then
            locationCheck v (PyVal.dict mes)
          else (Except.ok [] : Except PyErr (List String))) = Except.ok he := by
        by_cases hc : pyEqStr ((dictFind mes "matcher_type").getD PyVal.none) "location_hash" = true
        · rw [if_pos hc]
          exact locationCheck_shaped_ok v mes hmv
        · simp [hc]
      have hsevc : ∃ se, severityCheck v (PyVal.dict mes) = Except.ok se := by
        obtain ⟨b2, hb2⟩ := pyInStrSet_ok hsev SEVERITY_VALUES
        simp [severityCheck, pyDictGet, hb2]
      obtain ⟨ce, hce⟩ := hcountry
      obtain ⟨he, hhe⟩ := hhash
      obtain ⟨se, hse⟩ := hsevc
      simp [checkMatcher, pyDictGet, hb, hce, hhe, hse]
  | none => simp [shapedMatcher] at h
  | bool b => simp [shapedMatcher] at h
  | int n => simp [shapedMatcher] at h
  | str s => simp [shapedMatcher] at h
  | list xs => simp [shapedMatcher] at h

theorem checkMatchers_shaped_ok (v : PyVal) (ms : List PyVal)
    (h : ms.all shapedMatcher = true) :
    ∃ p, checkMatchers v ms = Except.ok p := by
  induction ms with
  | nil => exact ⟨_, rfl⟩
  | cons m rest ih =>
    simp only [List.all_cons, Bool.and_eq_true] at h
    obtain ⟨h1, h2⟩ := h
    obtain ⟨⟨e1, d1⟩, hm⟩ := checkMatcher_shaped_ok v m h1
    obtain ⟨⟨e2, d2⟩, hrest⟩ := ih h2
    simp [checkMatchers, hm, hrest]

theorem checkVersionEntry_shaped_ok (v d : PyVal) (h : shapedEntry d = true) :
    ∃ es, checkVersionEntry v d = Except.ok es := by
  cases d with
  | dict ds =>
    simp only [shapedEntry, Bool.and_eq_true] at h
    obtain ⟨hrel, hmat⟩ := h
    have hrelRes :
        ∃ re, (if (dictFind ds "released_at").isSome then
          match pySubscriptStr (PyVal.dict ds) "released_at" with
          | Except.error e => Except.error e
          | Except.ok (PyVal.str ts) =>
            Except.ok (if validate_iso8601 ts then []
                       else [vmsg v ": invalid ISO 8601 timestamp"])
          | Except.ok _ => Except.error PyErr.attributeError
        else (Except.ok [vmsg v ": missing 'released_at'"] : Except PyErr (List String))) =
          Except.ok re := by
      cases hra : dictFind ds "released_at" with
      | none => simp
      | some w =>
        rw [hra] at hrel
        cases w with
        | str ts => simp [pySubscriptStr, hra]
        | none => simp at hrel
        | bool b => simp at hrel
        | int n => simp at hrel
        | list xs => simp at hrel
        | dict d2 => simp at hrel
    obtain ⟨re, hre⟩ := hrelRes
    cases hms : dictFind ds "matchers" with
    | none => simp [checkVersionEntry, pyInKey, hms, hre]
    | some w =>
      rw [hms] at hmat
      cases w with
      | list ms =>
        obtain ⟨⟨merrs, hdflt⟩, hmm⟩ := checkMatchers_shaped_ok v ms hmat
        simp only [pySubscriptStr] at hre
        simp [checkVersionEntry, pyInKey, hms, hre, pySubscriptStr, pyIterate, hmm]
      | none => simp at hmat
      | bool b => simp at hmat
      | int n => simp at hmat
      | str s2 => simp at hmat
      | dict d2 => simp at hmat
  | none => simp [shapedEntry] at h
  | bool b => simp [shapedEntry] at h
  | int n => simp [shapedEntry] at h
  | str s => simp [shapedEntry] at h
  | list xs => simp [shapedEntry] at h

theorem checkVersions_shaped_ok (vs : List (PyVal × PyVal))
    (h : vs.all (fun kv => shapedEntry kv.2) = true) :
    ∃ es, checkVersions vs = Except.ok es := by
  induction vs with
  | nil => exact ⟨_, rfl⟩
  | cons kv rest ih =>
    simp only [List.all_cons, Bool.and_eq_true] at h
    obtain ⟨h1, h2⟩ := h
    obtain ⟨v, d⟩ := kv
    obtain ⟨e1, hd⟩ := checkVersionEntry_shaped_ok v d h1
    obtain ⟨e2, hrest⟩ := ih h2
    simp [checkVersions, hd, hrest]

theorem checkKeys_allstr_ok (keys : List PyVal)
    (h : keys.all (fun k => match k with
      | PyVal.str _ => true
      | _ => false) = true) :
    ∀ prev, ∃ es, checkKeys prev keys = Except.ok es := by
  induction keys with
  | nil => exact fun _ => ⟨_, rfl⟩
  | cons k rest ih =>
    intro prev
    simp only [List.all_cons, Bool.and_eq_true] at h
    obtain ⟨h1, h2⟩ := h
    cases k with
    | str s =>
      obtain ⟨es, hes⟩ := ih h2 (Option.some s)
      simp [checkKeys, hes]
    | none => simp at h1
    | bool b => simp at h1
    | int n => simp at h1
    | list xs => simp at h1
    | dict d2 => simp at h1

/-- C2 (amended). For every manifest obeying the structural shape
discipline of `wellShaped` — top level falsy or a mapping; `versions`
absent, falsy, or a mapping with string keys; entries mappings whose
`released_at` is a string when present and whose `matchers` is a list of
mappings with hashable `matcher_type`/`severity` and string-or-absent
`matcher_value` — `validate` returns normally: every content problem
becomes an entry of the returned sequence.  (The unamended claim — no
input ever raises — is refuted by `validate_raises_on_nonstring_key`.) -/
theorem wellShaped_validate_ok (data : PyVal) (h : wellShaped data = true) :
    ∃ errs, validate_manifest data = Except.ok errs := by
  cases data with
  | dict es =>
    by_cases htr : truthy (PyVal.dict es) = true
    · cases hv : dictFind es "versions" with
      | none => simp [validate_manifest, htr, pyInKey, hv]
      | some w =>
        rw [wellShaped, hv] at h
        cases w with
        | dict vs =>
          by_cases htv : truthy (PyVal.dict vs) = true
          · have h' := List.all_eq_true.mp h
            have hkeys : (vs.map Prod.fst).all (fun k => match k with
                | PyVal.str _ => true
                | _ => false) = true := by
              refine List.all_eq_true.mpr ?_
              intro k hk
              obtain ⟨kv, hkv, rfl⟩ := List.mem_map.mp hk
              have hkv2 := h' kv hkv
              simp only [Bool.and_eq_true] at hkv2
              exact hkv2.1
            have hents : vs.all (fun kv => shapedEntry kv.2) = true := by
              refine List.all_eq_true.mpr ?_
              intro kv hkv
              have hkv2 := h' kv hkv
              simp only [Bool.and_eq_true] at hkv2
              exact hkv2.2
            obtain ⟨ke, hke⟩ := checkKeys_allstr_ok (vs.map Prod.fst) hkeys Option.none
            obtain ⟨ve, hve⟩ := checkVersions_shaped_ok vs hents
            simp [validate_manifest, htr, pyInKey, hv, pySubscriptStr, htv, hke, hve]
          · simp [validate_manifest, htr, pyInKey, hv, pySubscriptStr, htv]
        | none =>
          simp only [truthy] at htr
          simp [validate_manifest, truthy, htr, pyInKey, hv, pySubscriptStr]
        | bool b =>
          simp only [Bool.not_eq_true'] at h
          simp [validate_manifest, htr, pyInKey, hv, pySubscriptStr, h]
        | int n =>
          simp only [Bool.not_eq_true'] at h
          simp [validate_manifest, htr, pyInKey, hv, pySubscriptStr, h]
        | str s =>
          simp only [Bool.not_eq_true'] at h
          simp [validate_manifest, htr, pyInKey, hv, pySubscriptStr, h]
        | list xs =>
          simp only [Bool.not_eq_true'] at h
          simp [validate_manifest, htr, pyInKey, hv, pySubscriptStr, h]
    · simp [validate_manifest, htr]
  | none => simp [validate_manifest, truthy]
  | bool b =>
    have htr : truthy (PyVal.bool b) = false := by simpa [wellShaped] using h
    simp [validate_manifest, htr]
  | int n =>
    have htr : truthy (PyVal.int n) = false := by simpa [wellShaped] using h
    simp [validate_manifest, htr]
  | str s =>
    have htr : truthy (PyVal.str s) = false := by simpa [wellShaped] using h
    simp [validate_manifest, htr]
  | list xs =>
    have htr : truthy (PyVal.list xs) = false := by simpa [wellShaped] using h
    simp [validate_manifest, htr]

/-- Witness for C2 (amended): a well-shaped manifest whose entry is
content-invalid (no `released_at`, no `matchers`) still returns normally. -/
theorem wellShaped_validate_ok_witness :
    ∃ errs, validate_manifest
      (PyVal.dict [(PyVal.str "versions",
        PyVal.dict [(PyVal.str "1.0.0", PyVal.dict [])])]) = Except.ok errs :=
  wellShaped_validate_ok _ (by decide)

/-- Counterexample to C2 as stated: a version key that is not a string
makes `re.match` raise `TypeError`, so `validate` does not return
normally on every malformed manifest. -/
theorem validate_raises_on_nonstring_key :
    validate_manifest
      (PyVal.dict [(PyVal.str "versions",
        PyVal.dict [(PyVal.int 1, PyVal.dict [])])]) =
      Except.error PyErr.typeError := rfl

/-- Is the value a Python mapping? -/
def isDict (v : PyVal) : Bool :=
  match v with
  | PyVal.dict _ => true
  | _ => false

/-- C3 (amended). A falsy manifest, or a mapping without a `versions`
key, returns exactly `["Missing 'versions' key"]`; a present but falsy
`versions` value (the empty mapping among them) returns exactly
`["No versions defined"]`; but a present, truthy, non-mapping `versions`
value raises `AttributeError` (at `versions.keys()`) instead of
returning. -/
theorem validate_early_returns (data : PyVal) :
    (truthy data = false → validate_manifest data = Except.ok ["Missing 'versions' key"]) ∧
    (∀ es, data = PyVal.dict es → dictFind es "versions" = Option.none →
      validate_manifest data = Except.ok ["Missing 'versions' key"]) ∧
    (∀ es v, data = PyVal.dict es → dictFind es "versions" = Option.some v →
      truthy v = false → validate_manifest data = Except.ok ["No versions defined"]) ∧
    (∀ es v, data = PyVal.dict es → dictFind es "versions" = Option.some v →
      truthy v = true → isDict v = false →
      validate_manifest data = Except.error PyErr.attributeError) := by
  refine ⟨?_, ?_, ?_, ?_⟩
  · intro h
    simp [validate_manifest, h]
  · rintro es rfl h
    by_cases htr : truthy (PyVal.dict es) = true
    · simp [validate_manifest, htr, pyInKey, h]
    · simp [validate_manifest, htr]
  · rintro es v rfl hv htv
    have htr : truthy (PyVal.dict es) = true := by
      simp [truthy, dictFind_some_not_nil hv]
    simp only [validate_manifest, htr, pyInKey, hv, Option.isSome_some, if_true,
      pySubscriptStr, htv]
    simp [htv]
  · rintro es v rfl hv htv hnd
    have htr : truthy (PyVal.dict es) = true := by
      simp [truthy, dictFind_some_not_nil hv]
    cases v with
    | dict vs => simp [isDict] at hnd
    | none => simp [truthy] at htv
    | bool b => simp [validate_manifest, htr, pyInKey, hv, pySubscriptStr, htv]
    | int n => simp [validate_manifest, htr, pyInKey, hv, pySubscriptStr, htv]
    | str s => simp [validate_manifest, htr, pyInKey, hv, pySubscriptStr, htv]
    | list xs => simp [validate_manifest, htr, pyInKey, hv, pySubscriptStr, htv]

/-- Witness for C3 (amended): the three behaviours at concrete inputs. -/
theorem validate_early_returns_witness :
    validate_manifest (PyVal.dict []) = Except.ok ["Missing 'versions' key"] ∧
    validate_manifest (PyVal.dict [(PyVal.str "versions", PyVal.dict [])]) =
      Except.ok ["No versions defined"] ∧
    validate_manifest (PyVal.dict [(PyVal.str "versions", PyVal.list [PyVal.int 1])]) =
      Except.error PyErr.attributeError :=
  ⟨(validate_early_returns (PyVal.dict [])).1 (by decide),
   (validate_early_returns _).2.2.1 _ (PyVal.dict []) rfl rfl (by decide),
   (validate_early_returns _).2.2.2 _ (PyVal.list [PyVal.int 1]) rfl rfl (by decide)
     (by decide)⟩

/-- Counterexample to C3 as stated: a manifest whose `versions` value is
present but not a mapping does not return `["Missing 'versions' key"]`;
it raises `AttributeError`. -/
theorem validate_nonmapping_versions_raises :
    validate_manifest (PyVal.dict [(PyVal.str "versions", PyVal.str "x")]) =
      Except.error PyErr.attributeError := rfl

theorem checkKeys_pair_order_mem (a b : String) (l1 : List PyVal) :
    ∀ (l2 : List PyVal) (prev : Option String) (es : List String),
    checkKeys prev (l1 ++ PyVal.str a :: PyVal.str b :: l2) = Except.ok es →
    pyStrLe b a = true →
    ("Versions not in ascending order: " ++ (a ++ (" -> " ++ b))) ∈ es := by
  induction l1 with
  | nil =>
    intro l2 prev es hok hle
    cases hrest : checkKeys (Option.some b) l2 with
    | error e => simp [checkKeys, hrest] at hok
    | ok rest2 =>
      simp only [List.nil_append, checkKeys, List.append_eq, hrest, hle, if_true] at hok
      simp only [Except.ok.injEq] at hok
      subst hok
      simp [List.mem_append]
  | cons k rest ih =>
    intro l2 prev es hok hle
    cases k with
    | str s =>
      cases hr : checkKeys (Option.some s) (rest ++ PyVal.str a :: PyVal.str b :: l2) with
      | error e => simp [checkKeys, hr] at hok
      | ok r =>
        simp only [List.cons_append, checkKeys, List.append_eq, hr] at hok
        simp only [Except.ok.injEq] at hok
        subst hok
        have hmem := ih l2 (Option.some s) r hr hle
        simp [List.mem_append, hmem]
    | none => simp [checkKeys] at hok
    | bool b2 => simp [checkKeys] at hok
    | int n => simp [checkKeys] at hok
    | list xs => simp [checkKeys] at hok
    | dict d2 => simp [checkKeys] at hok

theorem checkKeys_semver_mem (b : String) (l1 : List PyVal) :
    ∀ (l2 : List PyVal) (prev : Option String) (es : List String),
    checkKeys prev (l1 ++ PyVal.str b :: l2) = Except.ok es →
    validate_semver b = false →
    ("Invalid semantic version format: " ++ b) ∈ es := by
  induction l1 with
  | nil =>
    intro l2 prev es hok hbad
    cases hrest : checkKeys (Option.some b) l2 with
    | error e => simp [checkKeys, hrest] at hok
    | ok rest2 =>
      simp only [List.nil_append, checkKeys, List.append_eq, hrest, hbad] at hok
      simp only [Except.ok.injEq] at hok
      subst hok
      simp [List.mem_append]
  | cons k rest ih =>
    intro l2 prev es hok hbad
    cases k with
    | str s =>
      cases hr : checkKeys (Option.some s) (rest ++ PyVal.str b :: l2) with
      | error e => simp [checkKeys, hr] at hok
      | ok r =>
        simp only [List.cons_append, checkKeys, List.append_eq, hr] at hok
        simp only [Except.ok.injEq] at hok
        subst hok
        have hmem := ih l2 (Option.some s) r hr hbad
        simp [List.mem_append, hmem]
    | none => simp [checkKeys] at hok
    | bool b2 => simp [checkKeys] at hok
    | int n => simp [checkKeys] at hok
    | list xs => simp [checkKeys] at hok
    | dict d2 => simp [checkKeys] at hok

theorem validate_ok_decompose (es : List (PyVal × PyVal)) (vs : List (PyVal × PyVal))
    (errs : List String)
    (hv : dictFind es "versions" = Option.some (PyVal.dict vs))
    (hne : vs ≠ [])
    (hok : validate_manifest (PyVal.dict es) = Except.ok errs) :
    ∃ keyErrs verrs, checkKeys Option.none (vs.map Prod.fst) = Except.ok keyErrs ∧
      checkVersions vs = Except.ok verrs ∧ errs = keyErrs ++ verrs := by
  have htr : truthy (PyVal.dict es) = true := by
    simp [truthy, dictFind_some_not_nil hv]
  have htv : truthy (PyVal.dict vs) = true := by
    simp [truthy, List.isEmpty_iff, hne]
  cases hke : checkKeys Option.none (vs.map Prod.fst) with
  | error e =>
    simp [validate_manifest, htr, pyInKey, hv, pySubscriptStr, htv, hke] at hok
  | ok ke =>
    cases hvs : checkVersions vs with
    | error e =>
      simp [validate_manifest, htr, pyInKey, hv, pySubscriptStr, htv, hke, hvs] at hok
    | ok ve =>
      simp only [validate_manifest, htr, pyInKey, hv, Option.isSome_some, if_true,
        pySubscriptStr, htv, hke, hvs] at hok
      obtain rfl := (Except.ok.injEq _ _).mp hok
      exact ⟨ke, ve, rfl, rfl, rfl⟩

/-- C4. Whenever two adjacent version keys `a`, `b` (in encountered order)
satisfy `b <= a` under plain lexicographic string comparison and the
validation run returns a result, the error
`"Versions not in ascending order: a -> b"` is in the output.  (The
comparison is not semantic-version-aware: `"10.0.0" < "2.0.0"` as
strings, as the witness shows on `"2.0.0"` followed by `"10.0.0"`.) -/
theorem validate_order_error_mem (data : PyVal) (es vs : List (PyVal × PyVal))
    (l1 l2 : List PyVal) (a b : String) (errs : List String)
    (hdata : data = PyVal.dict es)
    (hv : dictFind es "versions" = Option.some (PyVal.dict vs))
    (hsplit : vs.map Prod.fst = l1 ++ PyVal.str a :: PyVal.str b :: l2)
    (hle : pyStrLe b a = true)
    (hok : validate_manifest data = Except.ok errs) :
    ("Versions not in ascending order: " ++ (a ++ (" -> " ++ b))) ∈ errs := by
  subst hdata
  have hne : vs ≠ [] := by
    intro hnil
    rw [hnil] at hsplit
    simp at hsplit
  obtain ⟨ke, ve, hke, _, rfl⟩ := validate_ok_decompose es vs errs hv hne hok
  rw [hsplit] at hke
  exact List.mem_append_left _ (checkKeys_pair_order_mem a b l1 l2 Option.none ke hke hle)

/-- Witness for C4: keys `"2.0.0"` then `"10.0.0"` (ascending as versions,
descending as strings) produce the ordering error, while `"10.0.0"` then
`"2.0.0"` produce no error at all. -/
theorem validate_order_error_mem_witness :
    ("Versions not in ascending order: " ++ ("2.0.0" ++ (" -> " ++ "10.0.0"))) ∈
      (["Versions not in ascending order: 2.0.0 -> 10.0.0"] : List String) ∧
    validate_manifest
      (PyVal.dict [(PyVal.str "versions",
        PyVal.dict [(PyVal.str "2.0.0",
          PyVal.dict [(PyVal.str "released_at", PyVal.str "2024-01-01T00:00:00Z"),
            (PyVal.str "matchers", PyVal.list [PyVal.dict
              [(PyVal.str "matcher_type", PyVal.str "default"),
               (PyVal.str "severity", PyVal.str "green")]])]),
          (PyVal.str "10.0.0",
          PyVal.dict [(PyVal.str "released_at", PyVal.str "2024-01-01T00:00:00Z"),
            (PyVal.str "matchers", PyVal.list [PyVal.dict
              [(PyVal.str "matcher_type", PyVal.str "default"),
               (PyVal.str "severity", PyVal.str "green")]])])])]) =
      Except.ok ["Versions not in ascending order: 2.0.0 -> 10.0.0"] ∧
    validate_manifest
      (PyVal.dict [(PyVal.str "versions",
        PyVal.dict [(PyVal.str "10.0.0",
          PyVal.dict [(PyVal.str "released_at", PyVal.str "2024-01-01T00:00:00Z"),
            (PyVal.str "matchers", PyVal.list [PyVal.dict
              [(PyVal.str "matcher_type", PyVal.str "default"),
               (PyVal.str "severity", PyVal.str "green")]])]),
          (PyVal.str "2.0.0",
          PyVal.dict [(PyVal.str "released_at", PyVal.str "2024-01-01T00:00:00Z"),
            (PyVal.str "matchers", PyVal.list [PyVal.dict
              [(PyVal.str "matcher_type", PyVal.str "default"),
               (PyVal.str "severity", PyVal.str "green")]])])])]) =
      Except.ok [] :=
  ⟨validate_order_error_mem
      (PyVal.dict [(PyVal.str "versions",
        PyVal.dict [(PyVal.str "2.0.0",
          PyVal.dict [(PyVal.str "released_at", PyVal.str "2024-01-01T00:00:00Z"),
            (PyVal.str "matchers", PyVal.list [PyVal.dict
              [(PyVal.str "matcher_type", PyVal.str "default"),
               (PyVal.str "severity", PyVal.str "green")]])]),
          (PyVal.str "10.0.0",
          PyVal.dict [(PyVal.str "released_at", PyVal.str "2024-01-01T00:00:00Z"),
            (PyVal.str "matchers", PyVal.list [PyVal.dict
              [(PyVal.str "matcher_type", PyVal.str "default"),
               (PyVal.str "severity", PyVal.str "green")]])])])])
      _ _ [] [] "2.0.0" "10.0.0" _ rfl rfl rfl (by decide) rfl,
   rfl, rfl⟩

/-- C10. The lexicographic ordering check runs on the raw key strings
whether or not the keys pass the semver format check: an adjacent pair
`a`, `b` with `b <= a` as strings and `b` not in semver format
contributes both the format error and the ordering error to the same
output. -/
theorem validate_order_and_semver_independent (data : PyVal)
    (es vs : List (PyVal × PyVal)) (l1 l2 : List PyVal) (a b : String)
    (errs : List String)
    (hdata : data = PyVal.dict es)
    (hv : dictFind es "versions" = Option.some (PyVal.dict vs))
    (hsplit : vs.map Prod.fst = l1 ++ PyVal.str a :: PyVal.str b :: l2)
    (hbad : validate_semver b = false)
    (hle : pyStrLe b a = true)
    (hok : validate_manifest data = Except.ok errs) :
    ("Invalid semantic version format: " ++ b) ∈ errs ∧
    ("Versions not in ascending order: " ++ (a ++ (" -> " ++ b))) ∈ errs := by
  subst hdata
  have hne : vs ≠ [] := by
    intro hnil
    rw [hnil] at hsplit
    simp at hsplit
  obtain ⟨ke, ve, hke, _, rfl⟩ := validate_ok_decompose es vs errs hv hne hok
  rw [hsplit] at hke
  constructor
  · refine List.mem_append_left _ ?_
    have hsplit2 : l1 ++ PyVal.str a :: PyVal.str b :: l2 =
        (l1 ++ [PyVal.str a]) ++ PyVal.str b :: l2 := by simp
    rw [hsplit2] at hke
    exact checkKeys_semver_mem b (l1 ++ [PyVal.str a]) l2 Option.none ke hke hbad
  · exact List.mem_append_left _ (checkKeys_pair_order_mem a b l1 l2 Option.none ke hke hle)

/-- Witness for C10: keys `"2.0.0"` then `"1.x"` yield both the format
error for `"1.x"` and the ordering error for the same adjacent pair. -/
theorem validate_order_and_semver_independent_witness :
    ("Invalid semantic version format: " ++ "1.x") ∈
      (["Invalid semantic version format: 1.x",
        "Versions not in ascending order: 2.0.0 -> 1.x"] : List String) ∧
    ("Versions not in ascending order: " ++ ("2.0.0" ++ (" -> " ++ "1.x"))) ∈
      (["Invalid semantic version format: 1.x",
        "Versions not in ascending order: 2.0.0 -> 1.x"] : List String) :=
  validate_order_and_semver_independent
    (PyVal.dict [(PyVal.str "versions",
      PyVal.dict [(PyVal.str "2.0.0",
        PyVal.dict [(PyVal.str "released_at", PyVal.str "2024-01-01T00:00:00Z"),
          (PyVal.str "matchers", PyVal.list [PyVal.dict
            [(PyVal.str "matcher_type", PyVal.str "default"),
             (PyVal.str "severity", PyVal.str "green")]])]),
        (PyVal.str "1.x",
        PyVal.dict [(PyVal.str "released_at", PyVal.str "2024-01-01T00:00:00Z"),
          (PyVal.str "matchers", PyVal.list [PyVal.dict
            [(PyVal.str "matcher_type", PyVal.str "default"),
             (PyVal.str "severity", PyVal.str "green")]])])])])
    _ _ [] [] "2.0.0" "1.x" _ rfl rfl rfl (by decide) (by decide) rfl

theorem defMsg_ne_typeMsg (v : PyVal) (t : String) :
    vmsg v ": missing default matcher" ≠
      vmsg v (": invalid matcher_type '" ++ (t ++ "'")) :=
  fun h => absurd (vmsg_inj h) (ne_of_param_at 2 (t ++ "'") (by decide) (by decide))

theorem defMsg_ne_countryMsg (v : PyVal) (c : String) :
    vmsg v ": missing default matcher" ≠
      vmsg v (": invalid country code '" ++ (c ++ "'")) :=
  fun h => absurd (vmsg_inj h) (ne_of_param_at 2 (c ++ "'") (by decide) (by decide))

theorem defMsg_ne_sevMsg (v : PyVal) (sv : String) :
    vmsg v ": missing default matcher" ≠
      vmsg v (": invalid severity '" ++ (sv ++ "'")) :=
  fun h => absurd (vmsg_inj h) (ne_of_param_at 2 (sv ++ "'") (by decide) (by decide))

theorem defMsg_ne_hashMsg (v : PyVal) :
    vmsg v ": missing default matcher" ≠ vmsg v ": invalid location hash format" :=
  fun h => absurd (vmsg_inj h) (by decide)

theorem defMsg_ne_missingRelMsg (v : PyVal) :
    vmsg v ": missing default matcher" ≠ vmsg v ": missing 'released_at'" :=
  fun h => absurd (vmsg_inj h) (by decide)

theorem defMsg_ne_isoMsg (v : PyVal) :
    vmsg v ": missing default matcher" ≠ vmsg v ": invalid ISO 8601 timestamp" :=
  fun h => absurd (vmsg_inj h) (by decide)

theorem matchersMsg_ne_missingRelMsg (v : PyVal) :
    vmsg v ": missing 'matchers'" ≠ vmsg v ": missing 'released_at'" :=
  fun h => absurd (vmsg_inj h) (by decide)

theorem matchersMsg_ne_isoMsg (v : PyVal) :
    vmsg v ": missing 'matchers'" ≠ vmsg v ": invalid ISO 8601 timestamp" :=
  fun h => absurd (vmsg_inj h) (by decide)

theorem matchersMsg_ne_defMsg (v : PyVal) :
    vmsg v ": missing 'matchers'" ≠ vmsg v ": missing default matcher" :=
  fun h => absurd (vmsg_inj h) (by decide)

theorem hashMsg_ne_sevMsg (v : PyVal) (sv : String) :
    vmsg v ": invalid location hash format" ≠
      vmsg v (": invalid severity '" ++ (sv ++ "'")) :=
  fun h => absurd (vmsg_inj h) (ne_of_param_at 10 (sv ++ "'") (by decide) (by decide))

theorem checkMatcher_ok_decompose (v : PyVal) (mes : List (PyVal × PyVal))
    (errs : List String) (d : Bool)
    (h : checkMatcher v (PyVal.dict mes) = Except.ok (errs, d)) :
    (pyInStrSet ((dictFind mes "matcher_type").getD PyVal.none) MATCHER_TYPES =
        Except.ok false ∧
      errs = [vmsg v (": invalid matcher_type '" ++
        (pyStr ((dictFind mes "matcher_type").getD PyVal.none) ++ "'"))] ∧
      d = false) ∨
    (pyInStrSet ((dictFind mes "matcher_type").getD PyVal.none) MATCHER_TYPES =
        Except.ok true ∧
      ∃ ce he se,
        (if pyEqStr ((dictFind mes "matcher_type").getD PyVal.none) "country"
         then countryCheck v (PyVal.dict mes)
         else Except.ok []) = Except.ok ce ∧
        (if pyEqStr ((dictFind mes "matcher_type").getD PyVal.none) "location_hash"
         then locationCheck v (PyVal.dict mes)
         else Except.ok []) = Except.ok he ∧
        severityCheck v (PyVal.dict mes) = Except.ok se ∧
        errs = ce ++ he ++ se ∧
        d = pyEqStr ((dictFind mes "matcher_type").getD PyVal.none) "default") := by
  simp only [checkMatcher, pyDictGet] at h
  cases hb : pyInStrSet ((dictFind mes "matcher_type").getD PyVal.none) MATCHER_TYPES with
  | error e => simp only [hb] at h; exact Except.noConfusion h
  | ok b =>
    simp only [hb] at h
    cases b with
    | false =>
      simp only [Except.ok.injEq, Prod.mk.injEq] at h
      exact Or.inl ⟨rfl, h.1.symm, h.2.symm⟩
    | true =>
      cases hce : (if pyEqStr ((dictFind mes "matcher_type").getD PyVal.none) "country"
          then countryCheck v (PyVal.dict mes) else Except.ok []) with
      | error e => simp only [hce] at h; exact Except.noConfusion h
      | ok ce =>
        simp only [hce] at h
        cases hhe : (if pyEqStr ((dictFind mes "matcher_type").getD PyVal.none) "location_hash"
            then locationCheck v (PyVal.dict mes) else Except.ok []) with
        | error e => simp only [hhe] at h; exact Except.noConfusion h
        | ok he =>
          simp only [hhe] at h
          cases hse : severityCheck v (PyVal.dict mes) with
          | error e => simp only [hse] at h; exact Except.noConfusion h
          | ok se =>
            simp only [hse, Except.ok.injEq, Prod.mk.injEq] at h
            exact Or.inr ⟨rfl, ce, he, se, rfl, rfl, rfl, h.1.symm, h.2.symm⟩

theorem nonstr_pyEqStr_false {w : PyVal} (hw : ∀ t, w ≠ PyVal.str t) (k : String) :
    pyEqStr w k = false := by
  cases w with
  | str t => exact absurd rfl (hw t)
  | none => rfl
  | bool b => rfl
  | int n => rfl
  | list xs => rfl
  | dict es => rfl

theorem checkMatcher_default (v m : PyVal) (errs : List String) (d : Bool)
    (h : checkMatcher v m = Except.ok (errs, d)) : d = isDefaultMatcher m := by
  cases m with
  | dict mes =>
    rcases checkMatcher_ok_decompose v mes errs d h with ⟨hb, -, hd⟩ | ⟨-, ce, he, se, -, -, -, -, hd⟩
    · subst hd
      simp only [isDefaultMatcher]
      cases hmt : (dictFind mes "matcher_type").getD PyVal.none with
      | str t =>
        rw [hmt] at hb
        simp only [pyInStrSet, Except.ok.injEq] at hb
        simp only [pyEqStr]
        by_cases hd2 : (t == "default") = true
        · rw [eq_of_beq hd2] at hb
          exact absurd hb.symm (by decide)
        · simp only [Bool.not_eq_true] at hd2
          exact hd2.symm
      | none => simp [pyEqStr]
      | bool b2 => simp [pyEqStr]
      | int n => simp [pyEqStr]
      | list xs => simp [pyEqStr]
      | dict d2 => simp [pyEqStr]
    · rw [hd]
      simp [isDefaultMatcher]
  | none => exact Except.noConfusion h
  | bool b => exact Except.noConfusion h
  | int n => exact Except.noConfusion h
  | str s => exact Except.noConfusion h
  | list xs => exact Except.noConfusion h

theorem checkMatchers_default (v : PyVal) (ms : List PyVal) :
    ∀ (errs : List String) (hd : Bool),
    checkMatchers v ms = Except.ok (errs, hd) → hd = ms.any isDefaultMatcher := by
  induction ms with
  | nil =>
    intro errs hd h
    simp only [checkMatchers, Except.ok.injEq, Prod.mk.injEq] at h
    simp [h.2.symm]
  | cons m rest ih =>
    intro errs hd h
    simp only [checkMatchers] at h
    cases hm : checkMatcher v m with
    | error e => rw [hm] at h; exact Except.noConfusion h
    | ok p =>
      obtain ⟨e1, d1⟩ := p
      rw [hm] at h
      cases hr : checkMatchers v rest with
      | error e => rw [hr] at h; exact Except.noConfusion h
      | ok q =>
        obtain ⟨e2, d2⟩ := q
        rw [hr] at h
        simp only [Except.ok.injEq, Prod.mk.injEq] at h
        obtain ⟨-, hd2⟩ := h
        subst hd2
        rw [checkMatcher_default v m e1 d1 hm, ih e2 d2 hr]
        simp [List.any_cons]

theorem countryCheck_shape (v m : PyVal) (ce : List String)
    (h : countryCheck v m = Except.ok ce) :
    ce = [] ∨ ∃ c, ce = [vmsg v (": invalid country code '" ++ (c ++ "'"))] := by
  cases m with
  | dict mes =>
    simp only [countryCheck, pyDictGet] at h
    by_cases ht : truthy ((dictFind mes "matcher_value").getD PyVal.none) = true
    · simp only [ht, if_true] at h
      cases hs : pyInStrSet ((dictFind mes "matcher_value").getD PyVal.none) VALID_COUNTRIES with
      | error e => simp only [hs] at h; exact Except.noConfusion h
      | ok b =>
        simp only [hs] at h
        cases b with
        | true =>
          simp only [Except.ok.injEq] at h
          exact Or.inl h.symm
        | false =>
          simp only [Except.ok.injEq] at h
          exact Or.inr ⟨_, h.symm⟩
    · simp only [Bool.not_eq_true] at ht
      simp only [ht, Bool.false_eq_true, if_false, Except.ok.injEq] at h
      exact Or.inr ⟨_, h.symm⟩
  | none => exact Except.noConfusion h
  | bool b => exact Except.noConfusion h
  | int n => exact Except.noConfusion h
  | str s => exact Except.noConfusion h
  | list xs => exact Except.noConfusion h

theorem locationCheck_shape (v m : PyVal) (he : List String)
    (h : locationCheck v m = Except.ok he) :
    he = [] ∨ he = [vmsg v ": invalid location hash format"] := by
  cases m with
  | dict mes =>
    simp only [locationCheck, pyDictGet] at h
    by_cases ht : truthy ((dictFind mes "matcher_value").getD PyVal.none) = true
    · simp only [ht, if_true] at h
      cases hw : (dictFind mes "matcher_value").getD PyVal.none with
      | str hs =>
        rw [hw] at h
        cases hvl : validate_location_hash hs with
        | true =>
          simp only [hvl, if_true, Except.ok.injEq] at h
          exact Or.inl h.symm
        | false =>
          simp only [hvl, Bool.false_eq_true, if_false, Except.ok.injEq] at h
          exact Or.inr h.symm
      | none => rw [hw] at h; exact Except.noConfusion h
      | bool b => rw [hw] at h; exact Except.noConfusion h
      | int n => rw [hw] at h; exact Except.noConfusion h
      | list xs => rw [hw] at h; exact Except.noConfusion h
      | dict d2 => rw [hw] at h; exact Except.noConfusion h
    · simp only [Bool.not_eq_true] at ht
      simp only [ht, Bool.false_eq_true, if_false, Except.ok.injEq] at h
      exact Or.inr h.symm
  | none => exact Except.noConfusion h
  | bool b => exact Except.noConfusion h
  | int n => exact Except.noConfusion h
  | str s => exact Except.noConfusion h
  | list xs => exact Except.noConfusion h

theorem severityCheck_shape (v m : PyVal) (se : List String)
    (h : severityCheck v m = Except.ok se) :
    se = [] ∨ ∃ sv, se = [vmsg v (": invalid severity '" ++ (sv ++ "'"))] := by
  cases m with
  | dict mes =>
    simp only [severityCheck, pyDictGet] at h
    cases hs : pyInStrSet ((dictFind mes "severity").getD PyVal.none) SEVERITY_VALUES with
    | error e => simp only [hs] at h; exact Except.noConfusion h
    | ok b =>
      simp only [hs, Except.ok.injEq] at h
      cases b with
      | true => simp only [if_true] at h; exact Or.inl h.symm
      | false =>
        simp only [Bool.false_eq_true, if_false] at h
        exact Or.inr ⟨_, h.symm⟩
  | none => exact Except.noConfusion h
  | bool b => exact Except.noConfusion h
  | int n => exact Except.noConfusion h
  | str s => exact Except.noConfusion h
  | list xs => exact Except.noConfusion h

theorem ite_countryCheck_shape (v : PyVal) (mes : List (PyVal × PyVal)) (cond : Bool)
    (ce : List String)
    (h : (if cond then countryCheck v (PyVal.dict mes) else Except.ok []) = Except.ok ce) :
    ce = [] ∨ ∃ c, ce = [vmsg v (": invalid country code '" ++ (c ++ "'"))] := by
  cases cond with
  | true => exact countryCheck_shape v (PyVal.dict mes) ce (by simpa using h)
  | false =>
    simp only [Bool.false_eq_true, if_false, Except.ok.injEq] at h
    exact Or.inl h.symm

theorem ite_locationCheck_shape (v : PyVal) (mes : List (PyVal × PyVal)) (cond : Bool)
    (he : List String)
    (h : (if cond then locationCheck v (PyVal.dict mes) else Except.ok []) = Except.ok he) :
    he = [] ∨ he = [vmsg v ": invalid location hash format"] := by
  cases cond with
  | true => exact locationCheck_shape v (PyVal.dict mes) he (by simpa using h)
  | false =>
    simp only [Bool.false_eq_true, if_false, Except.ok.injEq] at h
    exact Or.inl h.symm

theorem checkMatcher_not_mem_defMsg (v m : PyVal) (errs : List String) (d : Bool)
    (h : checkMatcher v m = Except.ok (errs, d)) :
    vmsg v ": missing default matcher" ∉ errs := by
  cases m with
  | dict mes =>
    rcases checkMatcher_ok_decompose v mes errs d h with
      ⟨-, herrs, -⟩ | ⟨-, ce, he, se, hce, hhe, hse, herrs, -⟩
    · subst herrs
      simp [defMsg_ne_typeMsg]
    · subst herrs
      rcases ite_countryCheck_shape v mes _ ce hce with rfl | ⟨c, rfl⟩ <;>
      rcases ite_locationCheck_shape v mes _ he hhe with rfl | rfl <;>
      rcases severityCheck_shape v (PyVal.dict mes) se hse with rfl | ⟨sv, rfl⟩ <;>
      simp [List.mem_append, defMsg_ne_countryMsg, defMsg_ne_hashMsg, defMsg_ne_sevMsg]
  | none => exact Except.noConfusion h
  | bool b => exact Except.noConfusion h
  | int n => exact Except.noConfusion h
  | str s => exact Except.noConfusion h
  | list xs => exact Except.noConfusion h

theorem checkMatchers_not_mem_defMsg (v : PyVal) (ms : List PyVal) :
    ∀ (errs : List String) (hd : Bool),
    checkMatchers v ms = Except.ok (errs, hd) →
    vmsg v ": missing default matcher" ∉ errs := by
  induction ms with
  | nil =>
    intro errs hd h
    simp only [checkMatchers, Except.ok.injEq, Prod.mk.injEq] at h
    simp [← h.1]
  | cons m rest ih =>
    intro errs hd h
    simp only [checkMatchers] at h
    cases hm : checkMatcher v m with
    | error e => rw [hm] at h; exact Except.noConfusion h
    | ok p =>
      obtain ⟨e1, d1⟩ := p
      rw [hm] at h
      cases hr : checkMatchers v rest with
      | error e => rw [hr] at h; exact Except.noConfusion h
      | ok q =>
        obtain ⟨e2, d2⟩ := q
        rw [hr] at h
        simp only [Except.ok.injEq, Prod.mk.injEq] at h
        obtain ⟨he, -⟩ := h
        subst he
        simp only [List.mem_append, not_or]
        exact ⟨checkMatcher_not_mem_defMsg v m e1 d1 hm, ih e2 d2 hr⟩

theorem checkVersionEntry_decompose (v : PyVal) (ds : List (PyVal × PyVal))
    (ms : List PyVal) (es : List String)
    (hm : dictFind ds "matchers" = Option.some (PyVal.list ms))
    (hok : checkVersionEntry v (PyVal.dict ds) = Except.ok es) :
    ∃ relErrs merrs hdflt,
      checkMatchers v ms = Except.ok (merrs, hdflt) ∧
      (∀ e ∈ relErrs, e = vmsg v ": missing 'released_at'" ∨
        e = vmsg v ": invalid ISO 8601 timestamp") ∧
      es = relErrs ++ merrs ++
        (if hdflt then [] else [vmsg v ": missing default matcher"]) := by
  cases hra : dictFind ds "released_at" with
  | none =>
    simp only [checkVersionEntry, pyInKey, hra, Option.isSome_none, Bool.false_eq_true,
      if_false, hm, Option.isSome_some, if_true, pySubscriptStr, pyIterate] at hok
    cases hcm : checkMatchers v ms with
    | error e => simp only [hcm] at hok; exact Except.noConfusion hok
    | ok p =>
      obtain ⟨merrs, hdflt⟩ := p
      simp only [hcm, Except.ok.injEq] at hok
      exact ⟨[vmsg v ": missing 'released_at'"], merrs, hdflt, rfl, by simp, hok.symm⟩
  | some w =>
    cases w with
    | str ts =>
      simp only [checkVersionEntry, pyInKey, hra, Option.isSome_some, if_true,
        pySubscriptStr, hm, pyIterate] at hok
      cases hcm : checkMatchers v ms with
      | error e => simp only [hcm] at hok; exact Except.noConfusion hok
      | ok p =>
        obtain ⟨merrs, hdflt⟩ := p
        simp only [hcm, Except.ok.injEq] at hok
        refine ⟨(if validate_iso8601 ts then []
          else [vmsg v ": invalid ISO 8601 timestamp"]), merrs, hdflt, rfl, ?_, hok.symm⟩
        intro e he
        by_cases hiso : validate_iso8601 ts = true
        · simp [hiso] at he
        · simp only [hiso, Bool.false_eq_true, if_false, List.mem_singleton] at he
          exact Or.inr he
    | none =>
      simp only [checkVersionEntry, pyInKey, hra, Option.isSome_some, if_true,
        pySubscriptStr] at hok
      exact Except.noConfusion hok
    | bool b =>
      simp only [checkVersionEntry, pyInKey, hra, Option.isSome_some, if_true,
        pySubscriptStr] at hok
      exact Except.noConfusion hok
    | int n =>
      simp only [checkVersionEntry, pyInKey, hra, Option.isSome_some, if_true,
        pySubscriptStr] at hok
      exact Except.noConfusion hok
    | list xs =>
      simp only [checkVersionEntry, pyInKey, hra, Option.isSome_some, if_true,
        pySubscriptStr] at hok
      exact Except.noConfusion hok
    | dict d2 =>
      simp only [checkVersionEntry, pyInKey, hra, Option.isSome_some, if_true,
        pySubscriptStr] at hok
      exact Except.noConfusion hok

/-- C5. For a version entry carrying a `matchers` list, the
missing-default-matcher error for that version is emitted if and only if
no matcher in the list has `matcher_type == 'default'`; in particular a
version with two or more `default` matchers is not flagged. -/
theorem missing_default_iff (v d : PyVal) (ds : List (PyVal × PyVal)) (ms : List PyVal)
    (es : List String)
    (hd : d = PyVal.dict ds)
    (hm : dictFind ds "matchers" = Option.some (PyVal.list ms))
    (hok : checkVersionEntry v d = Except.ok es) :
    (vmsg v ": missing default matcher" ∈ es ↔ ms.any isDefaultMatcher = false) := by
  subst hd
  obtain ⟨rel, merrs, hdflt, hcm, hrel, rfl⟩ := checkVersionEntry_decompose v ds ms es hm hok
  have hdeq := checkMatchers_default v ms merrs hdflt hcm
  constructor
  · intro hmem
    by_contra hany
    rw [Bool.not_eq_false] at hany
    have ht : hdflt = true := hdeq.trans hany
    rw [ht] at hmem
    have hmem2 : vmsg v ": missing default matcher" ∈ rel ++ merrs := by
      simpa using hmem
    rcases List.mem_append.mp hmem2 with hmem3 | hmem3
    · rcases hrel _ hmem3 with h | h
      · exact defMsg_ne_missingRelMsg v h
      · exact defMsg_ne_isoMsg v h
    · exact checkMatchers_not_mem_defMsg v ms merrs hdflt hcm hmem3
  · intro hany
    have hf : hdflt = false := hdeq.trans hany
    rw [hf]
    simp [List.mem_append]

/-- Witness for C5: concrete scenario 3 (sole matcher of type `country`)
yields exactly the missing-default error, and a version with two
`default` matchers yields no error. -/
theorem missing_default_iff_witness :
    (vmsg (PyVal.str "1.0.0") ": missing default matcher" ∈
      (["Version 1.0.0: missing default matcher"] : List String)) ∧
    checkVersionEntry (PyVal.str "1.0.0")
      (PyVal.dict [(PyVal.str "released_at", PyVal.str "2024-01-01T00:00:00Z"),
        (PyVal.str "matchers", PyVal.list
          [PyVal.dict [(PyVal.str "matcher_type", PyVal.str "default"),
                       (PyVal.str "severity", PyVal.str "green")],
           PyVal.dict [(PyVal.str "matcher_type", PyVal.str "default"),
                       (PyVal.str "severity", PyVal.str "green")]])]) = Except.ok [] :=
  ⟨(missing_default_iff (PyVal.str "1.0.0")
      (PyVal.dict [(PyVal.str "released_at", PyVal.str "2024-01-01T00:00:00Z"),
        (PyVal.str "matchers", PyVal.list
          [PyVal.dict [(PyVal.str "matcher_type", PyVal.str "country"),
                       (PyVal.str "matcher_value", PyVal.str "US"),
                       (PyVal.str "severity", PyVal.str "green")]])])
      _ _ _ rfl rfl rfl).mpr (by decide),
   rfl⟩

/-- C9. A version entry whose `matchers` key maps to an empty list gets no
missing-'matchers' error; the matcher loop contributes nothing, so the
matcher-related checks contribute exactly the missing-default error
(after any `released_at` errors). -/
theorem empty_matchers_entry (v : PyVal) (ds : List (PyVal × PyVal)) (es : List String)
    (hm : dictFind ds "matchers" = Option.some (PyVal.list []))
    (hok : checkVersionEntry v (PyVal.dict ds) = Except.ok es) :
    vmsg v ": missing 'matchers'" ∉ es ∧
    ∃ rel, es = rel ++ [vmsg v ": missing default matcher"] ∧
      ∀ e ∈ rel, e = vmsg v ": missing 'released_at'" ∨
        e = vmsg v ": invalid ISO 8601 timestamp" := by
  obtain ⟨rel, merrs, hdflt, hcm, hrel, rfl⟩ :=
    checkVersionEntry_decompose v ds [] es hm hok
  have h0 : checkMatchers v ([] : List PyVal) = Except.ok ([], false) := rfl
  rw [h0] at hcm
  simp only [Except.ok.injEq, Prod.mk.injEq] at hcm
  obtain ⟨h1, h2⟩ := hcm
  constructor
  · intro hmem
    rw [← h1, ← h2] at hmem
    simp only [Bool.false_eq_true, if_false, List.append_nil, List.nil_append] at hmem
    rcases List.mem_append.mp hmem with hmem | hmem
    · rcases hrel _ hmem with h | h
      · exact matchersMsg_ne_missingRelMsg v h
      · exact matchersMsg_ne_isoMsg v h
    · simp only [List.mem_singleton] at hmem
      exact matchersMsg_ne_defMsg v hmem
  · refine ⟨rel, ?_, hrel⟩
    rw [← h1, ← h2]
    simp

/-- Witness for C9: a version with valid `released_at` and empty
`matchers` list receives exactly the missing-default error. -/
theorem empty_matchers_entry_witness :
    vmsg (PyVal.str "1.0.0") ": missing 'matchers'" ∉
      (["Version 1.0.0: missing default matcher"] : List String) ∧
    ∃ rel, (["Version 1.0.0: missing default matcher"] : List String) =
      rel ++ [vmsg (PyVal.str "1.0.0") ": missing default matcher"] ∧
      ∀ e ∈ rel, e = vmsg (PyVal.str "1.0.0") ": missing 'released_at'" ∨
        e = vmsg (PyVal.str "1.0.0") ": invalid ISO 8601 timestamp" :=
  empty_matchers_entry (PyVal.str "1.0.0")
    [(PyVal.str "released_at", PyVal.str "2024-01-01T00:00:00Z"),
     (PyVal.str "matchers", PyVal.list [])]
    ["Version 1.0.0: missing default matcher"] rfl rfl

/-- C6. A matcher whose `matcher_type` fails the allowed-set test
contributes exactly the invalid-matcher_type error — so no severity error
is emitted for that matcher, whatever its severity; a matcher whose
`matcher_type` passes the test and whose severity fails the severity-set
test contributes the invalid-severity error (an absent severity is `None`
and fails the test). -/
theorem matcher_type_severity (v m : PyVal) (mes : List (PyVal × PyVal))
    (errs : List String) (d : Bool)
    (hm : m = PyVal.dict mes)
    (hok : checkMatcher v m = Except.ok (errs, d)) :
    (pyInStrSet ((dictFind mes "matcher_type").getD PyVal.none) MATCHER_TYPES =
        Except.ok false →
      errs = [vmsg v (": invalid matcher_type '" ++
        (pyStr ((dictFind mes "matcher_type").getD PyVal.none) ++ "'"))]) ∧
    (pyInStrSet ((dictFind mes "matcher_type").getD PyVal.none) MATCHER_TYPES =
        Except.ok true →
      pyInStrSet ((dictFind mes "severity").getD PyVal.none) SEVERITY_VALUES =
        Except.ok false →
      vmsg v (": invalid severity '" ++
        (pyStr ((dictFind mes "severity").getD PyVal.none) ++ "'")) ∈ errs) := by
  subst hm
  rcases checkMatcher_ok_decompose v mes errs d hok with
    ⟨hb, herrs, -⟩ | ⟨hb, ce, he, se, hce, hhe, hse, herrs, -⟩
  · constructor
    · intro _
      exact herrs
    · intro hb2 _
      rw [hb] at hb2
      simp at hb2
  · constructor
    · intro hb2
      rw [hb] at hb2
      simp at hb2
    · intro _ hsev
      have hse2 : se = [vmsg v (": invalid severity '" ++
          (pyStr ((dictFind mes "severity").getD PyVal.none) ++ "'"))] := by
        simp only [severityCheck, pyDictGet, hsev, Bool.false_eq_true, if_false,
          Except.ok.injEq] at hse
        exact hse.symm
      subst herrs
      rw [hse2]
      simp [List.mem_append]

/-- Witness for C6: `matcher_type 'bogus'` with severity `'blue'` yields
only the invalid-matcher_type error (no severity error), while
`matcher_type 'default'` with severity `'blue'` yields the
invalid-severity error. -/
theorem matcher_type_severity_witness :
    (["Version 1.0.0: invalid matcher_type 'bogus'"] : List String) =
      [vmsg (PyVal.str "1.0.0") (": invalid matcher_type '" ++
        (pyStr ((dictFind [(PyVal.str "matcher_type", PyVal.str "bogus"),
          (PyVal.str "severity", PyVal.str "blue")] "matcher_type").getD PyVal.none) ++ "'"))] ∧
    vmsg (PyVal.str "1.0.0") (": invalid severity '" ++
      (pyStr ((dictFind [(PyVal.str "matcher_type", PyVal.str "default"),
        (PyVal.str "severity", PyVal.str "blue")] "severity").getD PyVal.none) ++ "'")) ∈
      (["Version 1.0.0: invalid severity 'blue'"] : List String) :=
  ⟨(matcher_type_severity (PyVal.str "1.0.0")
      (PyVal.dict [(PyVal.str "matcher_type", PyVal.str "bogus"),
        (PyVal.str "severity", PyVal.str "blue")])
      [(PyVal.str "matcher_type", PyVal.str "bogus"),
        (PyVal.str "severity", PyVal.str "blue")]
      ["Version 1.0.0: invalid matcher_type 'bogus'"] false rfl rfl).1 rfl,
   (matcher_type_severity (PyVal.str "1.0.0")
      (PyVal.dict [(PyVal.str "matcher_type", PyVal.str "default"),
        (PyVal.str "severity", PyVal.str "blue")])
      [(PyVal.str "matcher_type", PyVal.str "default"),
        (PyVal.str "severity", PyVal.str "blue")]
      ["Version 1.0.0: invalid severity 'blue'"] true rfl rfl).2 rfl rfl⟩

/-- C7. For a matcher of type `location_hash`, the invalid-location-hash
error is emitted iff `matcher_value` is not a string passing the
64-lowercase-hex test (absent values, falsy values, non-strings and
ill-formed strings all fail it). -/
theorem location_hash_error_iff (v : PyVal) (mes : List (PyVal × PyVal))
    (errs : List String) (d : Bool)
    (hmt : dictFind mes "matcher_type" = Option.some (PyVal.str "location_hash"))
    (hok : checkMatcher v (PyVal.dict mes) = Except.ok (errs, d)) :
    (vmsg v ": invalid location hash format" ∈ errs ↔
      ¬∃ h, dictFind mes "matcher_value" = Option.some (PyVal.str h) ∧
        validate_location_hash h = true) := by
  rcases checkMatcher_ok_decompose v mes errs d hok with
    ⟨hb, -, -⟩ | ⟨-, ce, he, se, hce, hhe, hse, herrs, -⟩
  · rw [hmt] at hb
    simp [pyInStrSet, strListHas, MATCHER_TYPES] at hb
  · subst herrs
    have hc : pyEqStr ((dictFind mes "matcher_type").getD PyVal.none) "country" = false := by
      rw [hmt]; rfl
    have hl : pyEqStr ((dictFind mes "matcher_type").getD PyVal.none) "location_hash" = true := by
      rw [hmt]; rfl
    rw [hc] at hce
    simp only [Bool.false_eq_true, if_false, Except.ok.injEq] at hce
    obtain rfl := hce.symm
    rw [hl] at hhe
    have hhe2 : locationCheck v (PyVal.dict mes) = Except.ok he := by
      simpa using hhe
    constructor
    · intro hmem hex
      obtain ⟨hstr, hfind, hval⟩ := hex
      have hcomp : locationCheck v (PyVal.dict mes) = Except.ok [] := by
        simp [locationCheck, pyDictGet, hfind, hash_truthy hval, hval]
      rw [hcomp] at hhe2
      simp only [Except.ok.injEq] at hhe2
      subst hhe2
      rcases severityCheck_shape v (PyVal.dict mes) se hse with rfl | ⟨sv, rfl⟩
      · simp at hmem
      · simp only [List.nil_append, List.mem_singleton] at hmem
        exact hashMsg_ne_sevMsg v sv hmem
    · intro hnex
      have hcomp : locationCheck v (PyVal.dict mes) =
          Except.ok [vmsg v ": invalid location hash format"] := by
        cases hmv : dictFind mes "matcher_value" with
        | none => simp [locationCheck, pyDictGet, hmv, truthy]
        | some w =>
          cases w with
          | str hstr =>
            by_cases hval : validate_location_hash hstr = true
            · exact absurd ⟨hstr, hmv, hval⟩ hnex
            · by_cases htr : truthy (PyVal.str hstr) = true
              · simp [locationCheck, pyDictGet, hmv, htr, hval]
              · simp [locationCheck, pyDictGet, hmv, htr]
          | none => simp [locationCheck, pyDictGet, hmv, truthy]
          | bool b =>
            by_cases htr : truthy (PyVal.bool b) = true
            · rw [locationCheck] at hhe2
              simp only [pyDictGet, hmv, Option.getD_some, htr, if_true] at hhe2
              exact Except.noConfusion hhe2
            · simp [locationCheck, pyDictGet, hmv, htr]
          | int n =>
            by_cases htr : truthy (PyVal.int n) = true
            · rw [locationCheck] at hhe2
              simp only [pyDictGet, hmv, Option.getD_some, htr, if_true] at hhe2
              exact Except.noConfusion hhe2
            · simp [locationCheck, pyDictGet, hmv, htr]
          | list xs =>
            by_cases htr : truthy (PyVal.list xs) = true
            · rw [locationCheck] at hhe2
              simp only [pyDictGet, hmv, Option.getD_some, htr, if_true] at hhe2
              exact Except.noConfusion hhe2
            · simp [locationCheck, pyDictGet, hmv, htr]
          | dict d2 =>
            by_cases htr : truthy (PyVal.dict d2) = true
            · rw [locationCheck] at hhe2
              simp only [pyDictGet, hmv, Option.getD_some, htr, if_true] at hhe2
              exact Except.noConfusion hhe2
            · simp [locationCheck, pyDictGet, hmv, htr]
      rw [hcomp] at hhe2
      simp only [Except.ok.injEq] at hhe2
      subst hhe2
      simp [List.mem_append]

/-- Witness for C7: `matcher_value "abc"` (concrete scenario 4) produces
the invalid-location-hash error. -/
theorem location_hash_error_iff_witness :
    vmsg (PyVal.str "1.0.0") ": invalid location hash format" ∈
      (["Version 1.0.0: invalid location hash format"] : List String) :=
  (location_hash_error_iff (PyVal.str "1.0.0")
    [(PyVal.str "matcher_type", PyVal.str "location_hash"),
     (PyVal.str "matcher_value", PyVal.str "abc"),
     (PyVal.str "severity", PyVal.str "red")]
    ["Version 1.0.0: invalid location hash format"] false rfl rfl).mpr
    (by
      rintro ⟨h, hfind, hval⟩
      have h2 : Option.some (PyVal.str "abc") = Option.some (PyVal.str h) := hfind
      injection h2 with h3
      injection h3 with h4
      subst h4
      exact absurd hval (by decide))

theorem checkVersions_blocks (vs : List (PyVal × PyVal)) :
    ∀ (out : List String), checkVersions vs = Except.ok out →
    ∃ blocks : List (List String),
      blocks.length = vs.length ∧
      out = blocks.flatten ∧
      ∀ i (h1 : i < vs.length), ∃ b, blocks[i]? = Option.some b ∧
        checkVersionEntry (vs.get ⟨i, h1⟩).1 (vs.get ⟨i, h1⟩).2 = Except.ok b := by
  induction vs with
  | nil =>
    intro out h
    simp only [checkVersions, Except.ok.injEq] at h
    exact ⟨[], rfl, by simp [← h], fun i h1 => absurd h1 (by simp)⟩
  | cons kv rest ih =>
    intro out h
    obtain ⟨v, d⟩ := kv
    simp only [checkVersions] at h
    cases hd : checkVersionEntry v d with
    | error e => simp only [hd] at h; exact Except.noConfusion h
    | ok e1 =>
      simp only [hd] at h
      cases hr : checkVersions rest with
      | error e => simp only [hr] at h; exact Except.noConfusion h
      | ok e2 =>
        simp only [hr, Except.ok.injEq] at h
        obtain ⟨blocks, hlen, hout, hidx⟩ := ih e2 hr
        refine ⟨e1 :: blocks, by simp [hlen], ?_, ?_⟩
        · rw [← h, hout]
          simp
        · intro i h1
          cases i with
          | zero => exact ⟨e1, by simp, by simpa using hd⟩
          | succ i =>
            have h2 : i < rest.length := by simpa using h1
            obtain ⟨b, hb1, hb2⟩ := hidx i h2
            exact ⟨b, by simpa using hb1, by simpa using hb2⟩

/-- C8 (amended). The output is ordered by the order checks are
performed: the key-loop errors (semver format and ordering) come first,
followed by one error block per version in encountered order, each block
exactly what the per-version checks produced for that version.  The
distinctness half of the original claim fails: identical error strings
can repeat (see `validate_output_duplicates`). -/
theorem validate_output_ordered (data : PyVal) (es vs : List (PyVal × PyVal))
    (errs : List String)
    (hdata : data = PyVal.dict es)
    (hv : dictFind es "versions" = Option.some (PyVal.dict vs))
    (hne : vs ≠ [])
    (hok : validate_manifest data = Except.ok errs) :
    ∃ (keyErrs : List String) (blocks : List (List String)),
      checkKeys Option.none (vs.map Prod.fst) = Except.ok keyErrs ∧
      blocks.length = vs.length ∧
      (∀ i (h1 : i < vs.length), ∃ b, blocks[i]? = Option.some b ∧
        checkVersionEntry (vs.get ⟨i, h1⟩).1 (vs.get ⟨i, h1⟩).2 = Except.ok b) ∧
      errs = keyErrs ++ blocks.flatten := by
  subst hdata
  obtain ⟨ke, ve, hke, hvs, rfl⟩ := validate_ok_decompose es vs errs hv hne hok
  obtain ⟨blocks, hlen, hout, hidx⟩ := checkVersions_blocks vs ve hvs
  exact ⟨ke, blocks, hke, hlen, hidx, by rw [hout]⟩

/-- Witness for C8 (amended): a one-version manifest with a content-bad
entry decomposes into key errors followed by that version's block. -/
theorem validate_output_ordered_witness :
    ∃ (keyErrs : List String) (blocks : List (List String)),
      checkKeys Option.none
        (([(PyVal.str "1.0.0", PyVal.dict [])] : List (PyVal × PyVal)).map Prod.fst) =
        Except.ok keyErrs ∧
      blocks.length = ([(PyVal.str "1.0.0", PyVal.dict [])] : List (PyVal × PyVal)).length ∧
      (∀ i (h1 : i < ([(PyVal.str "1.0.0", PyVal.dict [])] : List (PyVal × PyVal)).length),
        ∃ b, blocks[i]? = Option.some b ∧
          checkVersionEntry
            (([(PyVal.str "1.0.0", PyVal.dict [])] : List (PyVal × PyVal)).get ⟨i, h1⟩).1
            (([(PyVal.str "1.0.0", PyVal.dict [])] : List (PyVal × PyVal)).get ⟨i, h1⟩).2 =
            Except.ok b) ∧
      (["Version 1.0.0: missing 'released_at'",
        "Version 1.0.0: missing 'matchers'"] : List String) = keyErrs ++ blocks.flatten :=
  validate_output_ordered
    (PyVal.dict [(PyVal.str "versions",
      PyVal.dict [(PyVal.str "1.0.0", PyVal.dict [])])])
    _ _ _ rfl rfl (List.cons_ne_nil _ _) rfl

/-- Counterexample to C8 as stated: two identical invalid matchers in one
version produce the same error string twice, so the returned sequence is
not duplicate-free. -/
theorem validate_output_duplicates :
    validate_manifest
      (PyVal.dict [(PyVal.str "versions",
        PyVal.dict [(PyVal.str "1.0.0",
          PyVal.dict [(PyVal.str "released_at", PyVal.str "2024-01-01T00:00:00Z"),
            (PyVal.str "matchers", PyVal.list
              [PyVal.dict [(PyVal.str "matcher_type", PyVal.str "country"),
                           (PyVal.str "matcher_value", PyVal.str "XX"),
                           (PyVal.str "severity", PyVal.str "green")],
               PyVal.dict [(PyVal.str "matcher_type", PyVal.str "country"),
                           (PyVal.str "matcher_value", PyVal.str "XX"),
                           (PyVal.str "severity", PyVal.str "green")]])])])]) =
      Except.ok ["Version 1.0.0: invalid country code 'XX'",
                 "Version 1.0.0: invalid country code 'XX'",
                 "Version 1.0.0: missing default matcher"] ∧
    ¬(["Version 1.0.0: invalid country code 'XX'",
       "Version 1.0.0: invalid country code 'XX'",
       "Version 1.0.0: missing default matcher"] : List String).Nodup :=
  ⟨rfl, by decide⟩
